import Mathlib

/-!
# Vehicle state interface (`sw/airborne/state.h`)

A shallow embedding of the set and get functions of `state.h` together with
the status-byte arithmetic they perform, followed by theorems about them.

Conventions of the embedding:

* `uint8_t` is `Nat`, reduced `% 256` at every store; `int32_t` is `Int`.
* `float` values are only ever copied by `state.h`, so a `float` is carried as
  the datum it encodes and never computed with.
* the global `state` is passed explicitly: a setter is a function
  `State → State`, a getter returns the value together with the state it
  leaves behind and the list of derivation routines it invoked.
* the representation flags are object-like macros whose replacement text is
  the *unparenthesised* token sequence `1<<k`.  They are embedded as that
  token sequence (`MacroText`) and substituted into the surrounding
  expression before it is evaluated, as the C preprocessor does.
-/

namespace PprzState

/-! ## Scalar types -/

abbrev uint8_t := Nat
abbrev int32_t := Int

/-- A single precision value, identified by its 32-bit encoding.  `state.h`
stores and returns such values without ever operating on them. -/
structure float where
  bits : Nat
  deriving DecidableEq, Repr

/-! ## Value types of the math library

`state.h` includes `math/pprz_algebra_*.h` and `math/pprz_geodetic_*.h` for
these; only their component lists matter here. -/

/-- Modelled from the spec: a 3-vector (`EcefCoor_*`, `NedCoor_*`,
`FloatVect3`), declared in the math headers that `state.h` includes. -/
structure Vect3 (α : Type) where
  x : α
  y : α
  z : α
  deriving DecidableEq, Repr

/-- Modelled from the spec: a geodetic position (`LlaCoor_*`), declared in
`math/pprz_geodetic_*.h`. -/
structure LlaCoor (α : Type) where
  lon : α
  lat : α
  alt : α
  deriving DecidableEq, Repr

/-- Modelled from the spec: a 2-vector (`Int32Vect2`, `FloatVect2`). -/
structure Vect2 (α : Type) where
  x : α
  y : α
  deriving DecidableEq, Repr

/-- Modelled from the spec: a quaternion (`Int32Quat`, `FloatQuat`). -/
structure Quat (α : Type) where
  qi : α
  qx : α
  qy : α
  qz : α
  deriving DecidableEq, Repr

/-- Modelled from the spec: an Euler triple (`Int32Eulers`, `FloatEulers`). -/
structure Eulers (α : Type) where
  phi : α
  theta : α
  psi : α
  deriving DecidableEq, Repr

/-- Modelled from the spec: a 3×3 matrix stored as nine consecutive
elements (`Int32RMat`, `FloatRMat`). -/
structure Mat33 (α : Type) where
  m : Fin 9 → α

/-- Modelled from the spec: body rates (`Int32Rates`, `FloatRates`). -/
structure Rates (α : Type) where
  p : α
  q : α
  r : α
  deriving DecidableEq, Repr

/-- Modelled from the spec: the tangent-plane origin (`LtpDef_*`): an anchor
point in ECEF and in geodetic coordinates and the rotation from ECEF to the
local frame. -/
structure LtpDef (α : Type) where
  ecef : Vect3 α
  lla : LlaCoor α
  ltp_of_ecef : Mat33 α

abbrev EcefCoor_i := Vect3 int32_t
abbrev NedCoor_i := Vect3 int32_t
abbrev LlaCoor_i := LlaCoor int32_t
abbrev LtpDef_i := LtpDef int32_t
abbrev FloatVect3 := Vect3 float
abbrev EcefCoor_f := Vect3 float
abbrev NedCoor_f := Vect3 float
abbrev LlaCoor_f := LlaCoor float
abbrev LtpDef_f := LtpDef float
abbrev Int32Quat := Quat int32_t
abbrev Int32Eulers := Eulers int32_t
abbrev Int32RMat := Mat33 int32_t
abbrev FloatQuat := Quat float
abbrev FloatEulers := Eulers float
abbrev FloatRMat := Mat33 float
abbrev Int32Rates := Rates int32_t
abbrev FloatRates := Rates float
abbrev Int32Vect2 := Vect2 int32_t
abbrev FloatVect2 := Vect2 float

/-! ## Copy macros of the math library -/

/-- Modelled from the spec: `VECT3_COPY(a, b)` / `INT32_VECT3_COPY(a, b)`
assign `b` to `a` component by component; the result is the new `a`. -/
def VECT3_COPY {α : Type} (b : Vect3 α) : Vect3 α :=
  { x := b.x, y := b.y, z := b.z }

/-- Modelled from the spec: `LLA_COPY(a, b)` assigns the three geodetic
components. -/
def LLA_COPY {α : Type} (b : LlaCoor α) : LlaCoor α :=
  { lon := b.lon, lat := b.lat, alt := b.alt }

/-- Modelled from the spec: `VECT2_COPY(a, b)` assigns both components. -/
def VECT2_COPY {α : Type} (b : Vect2 α) : Vect2 α :=
  { x := b.x, y := b.y }

/-- Modelled from the spec: `QUAT_COPY(a, b)` assigns the four components. -/
def QUAT_COPY {α : Type} (b : Quat α) : Quat α :=
  { qi := b.qi, qx := b.qx, qy := b.qy, qz := b.qz }

/-- Modelled from the spec: `EULERS_COPY(a, b)` assigns the three angles. -/
def EULERS_COPY {α : Type} (b : Eulers α) : Eulers α :=
  { phi := b.phi, theta := b.theta, psi := b.psi }

/-- Modelled from the spec: `RMAT_COPY(a, b)` copies the nine elements. -/
def RMAT_COPY {α : Type} (b : Mat33 α) : Mat33 α :=
  { m := fun i => b.m i }

/-- Modelled from the spec: `RATES_COPY(a, b)` assigns the three rates. -/
def RATES_COPY {α : Type} (b : Rates α) : Rates α :=
  { p := b.p, q := b.q, r := b.r }

/-! ## Flag macros and their textual expansion -/

/-- The two shift operators of C; both have the same precedence and
associate to the left. -/
inductive ShiftOp where
  | shl
  | shr
  deriving DecidableEq, Repr

/-- Apply one shift to a non-negative `int`. -/
def ShiftOp.apply : ShiftOp → Nat → Nat → Nat
  | .shl, a, n => a <<< n
  | .shr, a, n => a >>> n

/-- The replacement text of an object-like macro of the form
`head op₁ n₁ op₂ n₂ …` (a chain of shifts without parentheses). -/
structure MacroText where
  head : Nat
  tail : List (ShiftOp × Nat)
  deriving DecidableEq, Repr

/-- Evaluate `a op₁ n₁ op₂ n₂ …` from left to right. -/
def evalChain (a : Nat) (ops : List (ShiftOp × Nat)) : Nat :=
  ops.foldl (fun acc o => o.1.apply acc o.2) a

/-- The value of the macro text when it stands alone as an expression. -/
def MacroText.value (f : MacroText) : Nat :=
  evalChain f.head f.tail

/-- The value of `a op F` after `F` has been replaced by its text: the
expression is `a op head op₁ n₁ …`, read from left to right. -/
def pasteRight (a : Nat) (op : ShiftOp) (f : MacroText) : Nat :=
  evalChain a ((op, f.head) :: f.tail)

/-- The text `1<<k`. -/
def oneShl (k : Nat) : MacroText :=
  { head := 1, tail := [(ShiftOp.shl, k)] }

def POS_ECEF_I : MacroText := oneShl 0
def POS_NED_I : MacroText := oneShl 1
def POS_LLA_I : MacroText := oneShl 2
def POS_UTM_I : MacroText := oneShl 3
def POS_ECEF_F : MacroText := oneShl 4
def POS_NED_F : MacroText := oneShl 5
def POS_LLA_F : MacroText := oneShl 6
def POS_UTM_F : MacroText := oneShl 7

def SPEED_ECEF_I : MacroText := oneShl 0
def SPEED_NED_I : MacroText := oneShl 1
def SPEED_HNORM_I : MacroText := oneShl 2
def SPEED_HDIR_I : MacroText := oneShl 3
def SPEED_ECEF_F : MacroText := oneShl 4
def SPEED_NED_F : MacroText := oneShl 5
def SPEED_HNORM_F : MacroText := oneShl 6
def SPEED_HDIR_F : MacroText := oneShl 7

def ACCEL_ECEF_I : MacroText := oneShl 0
def ACCEL_NED_I : MacroText := oneShl 1
def ACCEL_ECEF_F : MacroText := oneShl 3
def ACCEL_NED_F : MacroText := oneShl 4

def ATT_QUAT_I : MacroText := oneShl 0
def ATT_EULER_I : MacroText := oneShl 1
def ATT_RMAT_I : MacroText := oneShl 2
def ATT_QUAT_F : MacroText := oneShl 3
def ATT_EULER_F : MacroText := oneShl 4
def ATT_RMAT_F : MacroText := oneShl 5

def RATE_I : MacroText := oneShl 0
def RATE_F : MacroText := oneShl 1

def WINDSPEED_I : MacroText := oneShl 0
def AIRSPEED_I : MacroText := oneShl 1
def WINDSPEED_F : MacroText := oneShl 2
def AIRSPEED_F : MacroText := oneShl 3

/-- Store an `int` into a `uint8_t` object. -/
def toUint8 (n : Nat) : uint8_t := n % 256

/-- The expression `(1 << FLAG)` that the setters assign, after expansion. -/
def oneShlFlag (f : MacroText) : Nat :=
  pasteRight 1 ShiftOp.shl f

/-- Modelled from the spec: `bit_is_set(x, b)` of `std.h`, whose text is
`((x >> b) & 0x1)`; `b` is substituted textually. -/
def bit_is_set (x : uint8_t) (b : MacroText) : Nat :=
  (pasteRight x ShiftOp.shr b) &&& 1

/-- Modelled from the spec: `SetBit(a, n)` of `std.h`, whose text is
`a |= (1 << n)`; the result is the new value of the `uint8_t` object `a`. -/
def SetBit (a : uint8_t) (n : MacroText) : uint8_t :=
  toUint8 (a ||| oneShlFlag n)

/-- Modelled from the spec: `ClearBit(a, n)` of `std.h`, whose text is
`a &= ~(1 << n)`.  The complement is taken on a 32-bit `int`, so `~m` has
the bit pattern `0xFFFFFFFF ^ m`; the result is the new value of `a`. -/
def ClearBit (a : uint8_t) (n : MacroText) : uint8_t :=
  toUint8 (a &&& (0xFFFFFFFF ^^^ oneShlFlag n))

/-! ## The state structure -/

/-- The fields of `struct State`, in declaration order. -/
structure State where
  pos_status : uint8_t
  ecef_pos_i : EcefCoor_i
  lla_pos_i : LlaCoor_i
  ned_origin_i : LtpDef_i
  ned_initialised_i : Bool
  ned_pos_i : NedCoor_i
  utm_pos_f : FloatVect3
  utm_zone_f : uint8_t
  alt_agl_f : float
  lla_pos_f : LlaCoor_f
  ecef_pos_f : EcefCoor_f
  ned_origin_f : LtpDef_f
  ned_initialised_f : Bool
  ned_pos_f : NedCoor_f
  speed_status : uint8_t
  ecef_speed_i : EcefCoor_i
  ned_speed_i : NedCoor_i
  h_speed_norm_i : int32_t
  h_speed_dir_i : int32_t
  ecef_speed_f : EcefCoor_f
  ned_speed_f : NedCoor_f
  h_speed_norm_f : float
  h_speed_dir_f : float
  accel_status : uint8_t
  ned_accel_i : NedCoor_i
  ecef_accel_i : EcefCoor_i
  ned_accel_f : NedCoor_f
  ecef_accel_f : EcefCoor_f
  att_status : uint8_t
  ned_to_body_quat_i : Int32Quat
  ned_to_body_eulers_i : Int32Eulers
  ned_to_body_rmat_i : Int32RMat
  ned_to_body_quat_f : FloatQuat
  ned_to_body_eulers_f : FloatEulers
  ned_to_body_rmat_f : FloatRMat
  rate_status : uint8_t
  body_rates_i : Int32Rates
  body_rates_f : FloatRates
  wind_air_status : uint8_t
  h_windspeed_i : Int32Vect2
  airspeed_i : int32_t
  h_windspeed_f : FloatVect2
  airspeed_f : float

/-! ## Set functions of the Position, Speed, Acceleration, Attitude and
Angular-Rate groups

Each copies its argument into the slot and then assigns `(1 << FLAG)` to the
status byte of its group. -/

def StateSetPositionEcef_i (ecef_pos : EcefCoor_i) (state : State) : State :=
  { state with
    ecef_pos_i := VECT3_COPY ecef_pos
    pos_status := toUint8 (oneShlFlag POS_ECEF_I) }

def StateSetPositionNed_i (ned_pos : NedCoor_i) (state : State) : State :=
  { state with
    ned_pos_i := VECT3_COPY ned_pos
    pos_status := toUint8 (oneShlFlag POS_NED_I) }

def StateSetPositionLla_i (lla_pos : LlaCoor_i) (state : State) : State :=
  { state with
    lla_pos_i := LLA_COPY lla_pos
    pos_status := toUint8 (oneShlFlag POS_LLA_I) }

def StateSetPositionUtm_f (utm_pos : FloatVect3) (state : State) : State :=
  { state with
    utm_pos_f := VECT3_COPY utm_pos
    pos_status := toUint8 (oneShlFlag POS_UTM_F) }

def StateSetPositionEcef_f (ecef_pos : EcefCoor_f) (state : State) : State :=
  { state with
    ecef_pos_f := VECT3_COPY ecef_pos
    pos_status := toUint8 (oneShlFlag POS_ECEF_F) }

def StateSetPositionNed_f (ned_pos : NedCoor_f) (state : State) : State :=
  { state with
    ned_pos_f := VECT3_COPY ned_pos
    pos_status := toUint8 (oneShlFlag POS_NED_F) }

def StateSetPositionLla_f (lla_pos : LlaCoor_f) (state : State) : State :=
  { state with
    lla_pos_f := LLA_COPY lla_pos
    pos_status := toUint8 (oneShlFlag POS_LLA_F) }

def StateSetSpeedNed_i (ned_speed : NedCoor_i) (state : State) : State :=
  { state with
    ned_speed_i := VECT3_COPY ned_speed
    speed_status := toUint8 (oneShlFlag SPEED_NED_I) }

def StateSetSpeedEcef_i (ecef_speed : EcefCoor_i) (state : State) : State :=
  { state with
    ecef_speed_i := VECT3_COPY ecef_speed
    speed_status := toUint8 (oneShlFlag SPEED_ECEF_I) }

def StateSetSpeedNed_f (ned_speed : NedCoor_f) (state : State) : State :=
  { state with
    ned_speed_f := VECT3_COPY ned_speed
    speed_status := toUint8 (oneShlFlag SPEED_NED_F) }

def StateSetSpeedEcef_f (ecef_speed : EcefCoor_f) (state : State) : State :=
  { state with
    ecef_speed_f := VECT3_COPY ecef_speed
    speed_status := toUint8 (oneShlFlag SPEED_ECEF_F) }

def StateSetAccelNed_i (ned_accel : NedCoor_i) (state : State) : State :=
  { state with
    ned_accel_i := VECT3_COPY ned_accel
    accel_status := toUint8 (oneShlFlag ACCEL_NED_I) }

def StateSetAccelEcef_i (ecef_accel : EcefCoor_i) (state : State) : State :=
  { state with
    ecef_accel_i := VECT3_COPY ecef_accel
    accel_status := toUint8 (oneShlFlag ACCEL_ECEF_I) }

def StateSetAccelNed_f (ned_accel : NedCoor_f) (state : State) : State :=
  { state with
    ned_accel_f := VECT3_COPY ned_accel
    accel_status := toUint8 (oneShlFlag ACCEL_NED_F) }

def StateSetAccelEcef_f (ecef_accel : EcefCoor_f) (state : State) : State :=
  { state with
    ecef_accel_f := VECT3_COPY ecef_accel
    accel_status := toUint8 (oneShlFlag ACCEL_ECEF_F) }

def StateSetNedToBodyQuat_i (ned_to_body_quat : Int32Quat) (state : State) : State :=
  { state with
    ned_to_body_quat_i := QUAT_COPY ned_to_body_quat
    att_status := toUint8 (oneShlFlag ATT_QUAT_I) }

def StateSetNedToBodyRMat_i (ned_to_body_rmat : Int32RMat) (state : State) : State :=
  { state with
    ned_to_body_rmat_i := RMAT_COPY ned_to_body_rmat
    att_status := toUint8 (oneShlFlag ATT_RMAT_I) }

def StateSetNedToBodyEulers_i (ned_to_body_eulers : Int32Eulers) (state : State) : State :=
  { state with
    ned_to_body_eulers_i := EULERS_COPY ned_to_body_eulers
    att_status := toUint8 (oneShlFlag ATT_EULER_I) }

def StateSetNedToBodyQuat_f (ned_to_body_quat : FloatQuat) (state : State) : State :=
  { state with
    ned_to_body_quat_f := QUAT_COPY ned_to_body_quat
    att_status := toUint8 (oneShlFlag ATT_QUAT_F) }

def StateSetNedToBodyRMat_f (ned_to_body_rmat : FloatRMat) (state : State) : State :=
  { state with
    ned_to_body_rmat_f := RMAT_COPY ned_to_body_rmat
    att_status := toUint8 (oneShlFlag ATT_RMAT_F) }

def StateSetNedToBodyEulers_f (ned_to_body_eulers : FloatEulers) (state : State) : State :=
  { state with
    ned_to_body_eulers_f := EULERS_COPY ned_to_body_eulers
    att_status := toUint8 (oneShlFlag ATT_EULER_F) }

def StateSetBodyRates_i (body_rate : Int32Rates) (state : State) : State :=
  { state with
    body_rates_i := RATES_COPY body_rate
    rate_status := toUint8 (oneShlFlag RATE_I) }

def StateSetBodyRates_f (body_rate : FloatRates) (state : State) : State :=
  { state with
    body_rates_f := RATES_COPY body_rate
    rate_status := toUint8 (oneShlFlag RATE_F) }

/-! ## Set functions of the Wind/Airspeed group

Each copies its argument, then runs `ClearBit` and `SetBit` on
`wind_air_status`. -/

def StateSetHorizontalWindspeed_i (h_windspeed : Int32Vect2) (state : State) : State :=
  { state with
    h_windspeed_i := VECT2_COPY h_windspeed
    wind_air_status := SetBit (ClearBit state.wind_air_status WINDSPEED_F) WINDSPEED_I }

def StateSetAirspeed_i (airspeed : int32_t) (state : State) : State :=
  { state with
    airspeed_i := airspeed
    wind_air_status := SetBit (ClearBit state.wind_air_status AIRSPEED_F) AIRSPEED_I }

def StateSetHorizontalWindspeed_f (h_windspeed : FloatVect2) (state : State) : State :=
  { state with
    h_windspeed_f := VECT2_COPY h_windspeed
    wind_air_status := SetBit (ClearBit state.wind_air_status WINDSPEED_I) WINDSPEED_F }

def StateSetAirspeed_f (airspeed : float) (state : State) : State :=
  { state with
    airspeed_f := airspeed
    wind_air_status := SetBit (ClearBit state.wind_air_status AIRSPEED_I) AIRSPEED_F }

/-! ## The 27 set functions as one family -/

/-- A call of one of the set functions, with its argument. -/
inductive Setter where
  | PositionEcef_i (v : EcefCoor_i)
  | PositionNed_i (v : NedCoor_i)
  | PositionLla_i (v : LlaCoor_i)
  | PositionUtm_f (v : FloatVect3)
  | PositionEcef_f (v : EcefCoor_f)
  | PositionNed_f (v : NedCoor_f)
  | PositionLla_f (v : LlaCoor_f)
  | SpeedNed_i (v : NedCoor_i)
  | SpeedEcef_i (v : EcefCoor_i)
  | SpeedNed_f (v : NedCoor_f)
  | SpeedEcef_f (v : EcefCoor_f)
  | AccelNed_i (v : NedCoor_i)
  | AccelEcef_i (v : EcefCoor_i)
  | AccelNed_f (v : NedCoor_f)
  | AccelEcef_f (v : EcefCoor_f)
  | NedToBodyQuat_i (v : Int32Quat)
  | NedToBodyRMat_i (v : Int32RMat)
  | NedToBodyEulers_i (v : Int32Eulers)
  | NedToBodyQuat_f (v : FloatQuat)
  | NedToBodyRMat_f (v : FloatRMat)
  | NedToBodyEulers_f (v : FloatEulers)
  | BodyRates_i (v : Int32Rates)
  | BodyRates_f (v : FloatRates)
  | HorizontalWindspeed_i (v : Int32Vect2)
  | Airspeed_i (v : int32_t)
  | HorizontalWindspeed_f (v : FloatVect2)
  | Airspeed_f (v : float)

/-- Run the call on a state. -/
def Setter.run : Setter → State → State
  | .PositionEcef_i v => StateSetPositionEcef_i v
  | .PositionNed_i v => StateSetPositionNed_i v
  | .PositionLla_i v => StateSetPositionLla_i v
  | .PositionUtm_f v => StateSetPositionUtm_f v
  | .PositionEcef_f v => StateSetPositionEcef_f v
  | .PositionNed_f v => StateSetPositionNed_f v
  | .PositionLla_f v => StateSetPositionLla_f v
  | .SpeedNed_i v => StateSetSpeedNed_i v
  | .SpeedEcef_i v => StateSetSpeedEcef_i v
  | .SpeedNed_f v => StateSetSpeedNed_f v
  | .SpeedEcef_f v => StateSetSpeedEcef_f v
  | .AccelNed_i v => StateSetAccelNed_i v
  | .AccelEcef_i v => StateSetAccelEcef_i v
  | .AccelNed_f v => StateSetAccelNed_f v
  | .AccelEcef_f v => StateSetAccelEcef_f v
  | .NedToBodyQuat_i v => StateSetNedToBodyQuat_i v
  | .NedToBodyRMat_i v => StateSetNedToBodyRMat_i v
  | .NedToBodyEulers_i v => StateSetNedToBodyEulers_i v
  | .NedToBodyQuat_f v => StateSetNedToBodyQuat_f v
  | .NedToBodyRMat_f v => StateSetNedToBodyRMat_f v
  | .NedToBodyEulers_f v => StateSetNedToBodyEulers_f v
  | .BodyRates_i v => StateSetBodyRates_i v
  | .BodyRates_f v => StateSetBodyRates_f v
  | .HorizontalWindspeed_i v => StateSetHorizontalWindspeed_i v
  | .Airspeed_i v => StateSetAirspeed_i v
  | .HorizontalWindspeed_f v => StateSetHorizontalWindspeed_f v
  | .Airspeed_f v => StateSetAirspeed_f v

/-! ## Derivation routines

`state.h` only declares the transformation functions (`extern void
StateCalc…(void)`); each reads and writes the global `state`.  They are a
parameter of the get functions. -/

/-- The transformation functions declared in `state.h`. -/
inductive Routine where
  | StateCalcPositionEcef_i
  | StateCalcPositionNed_i
  | StateCalcPositionLla_i
  | StateCalcPositionEcef_f
  | StateCalcPositionNed_f
  | StateCalcPositionLla_f
  | StateCalcSpeedNed_i
  | StateCalcSpeedEcef_i
  | StateCalcHorizontalSpeedNorm_i
  | StateCalcHorizontalSpeedDir_i
  | StateCalcSpeedNed_f
  | StateCalcSpeedEcef_f
  | StateCalcHorizontalSpeedNorm_f
  | StateCalcHorizontalSpeedDir_f
  | StateCalcAccelNed_i
  | StateCalcAccelEcef_i
  | StateCalcAccelNed_f
  | StateCalcAccelEcef_f
  | StateCalcNedToBodyQuat_i
  | StateCalcNedToBodyRMat_i
  | StateCalcNedToBodyEulers_i
  | StateCalcNedToBodyQuat_f
  | StateCalcNedToBodyRMat_f
  | StateCalcNedToBodyEulers_f
  | StateCalcBodyRates_i
  | StateCalcBodyRates_f
  | StateCalcHorizontalWindspeed_i
  | StateCalcAirspeed_i
  | StateCalcHorizontalWindspeed_f
  | StateCalcAirspeed_f
  deriving DecidableEq, Repr

/-- An implementation of the transformation functions. -/
abbrev Derivations := Routine → State → State

/-- What is left after a prefix of a get function's body: the current state
and the routines invoked so far, oldest first. -/
abbrev Trace := State × List Routine

/-- The statement `StateCalcX();`. -/
def invoke (derive : Derivations) (r : Routine) (t : Trace) : Trace :=
  (derive r t.1, t.2 ++ [r])

/-- The outcome of a get function: the returned value, the state after the
call and the routines it invoked. -/
structure Read (α : Type) where
  val : α
  state : State
  calls : List Routine

/-! ## Get functions

Each is `if (!bit_is_set(status, FLAG)) StateCalcX(); return state.slot;`,
except the two float acceleration getters, whose condition has no `!`. -/

def StateGetPositionEcef_i (derive : Derivations) (state : State) : Read EcefCoor_i :=
  let t : Trace :=
    if bit_is_set state.pos_status POS_ECEF_I = 0 then invoke derive Routine.StateCalcPositionEcef_i (state, [])
    else (state, [])
  { val := t.1.ecef_pos_i, state := t.1, calls := t.2 }

def StateGetPositionNed_i (derive : Derivations) (state : State) : Read NedCoor_i :=
  let t : Trace :=
    if bit_is_set state.pos_status POS_NED_I = 0 then invoke derive Routine.StateCalcPositionNed_i (state, [])
    else (state, [])
  { val := t.1.ned_pos_i, state := t.1, calls := t.2 }

def StateGetPositionLla_i (derive : Derivations) (state : State) : Read LlaCoor_i :=
  let t : Trace :=
    if bit_is_set state.pos_status POS_LLA_I = 0 then invoke derive Routine.StateCalcPositionLla_i (state, [])
    else (state, [])
  { val := t.1.lla_pos_i, state := t.1, calls := t.2 }

def StateGetPositionEcef_f (derive : Derivations) (state : State) : Read EcefCoor_f :=
  let t : Trace :=
    if bit_is_set state.pos_status POS_ECEF_F = 0 then invoke derive Routine.StateCalcPositionEcef_f (state, [])
    else (state, [])
  { val := t.1.ecef_pos_f, state := t.1, calls := t.2 }

def StateGetPositionNed_f (derive : Derivations) (state : State) : Read NedCoor_f :=
  let t : Trace :=
    if bit_is_set state.pos_status POS_NED_F = 0 then invoke derive Routine.StateCalcPositionNed_f (state, [])
    else (state, [])
  { val := t.1.ned_pos_f, state := t.1, calls := t.2 }

def StateGetPositionLla_f (derive : Derivations) (state : State) : Read LlaCoor_f :=
  let t : Trace :=
    if bit_is_set state.pos_status POS_LLA_F = 0 then invoke derive Routine.StateCalcPositionLla_f (state, [])
    else (state, [])
  { val := t.1.lla_pos_f, state := t.1, calls := t.2 }

def StateGetSpeedNed_i (derive : Derivations) (state : State) : Read NedCoor_i :=
  let t : Trace :=
    if bit_is_set state.speed_status SPEED_NED_I = 0 then invoke derive Routine.StateCalcSpeedNed_i (state, [])
    else (state, [])
  { val := t.1.ned_speed_i, state := t.1, calls := t.2 }

def StateGetSpeedEcef_i (derive : Derivations) (state : State) : Read EcefCoor_i :=
  let t : Trace :=
    if bit_is_set state.speed_status SPEED_ECEF_I = 0 then invoke derive Routine.StateCalcSpeedEcef_i (state, [])
    else (state, [])
  { val := t.1.ecef_speed_i, state := t.1, calls := t.2 }

def StateGetHorizontalSpeedNorm_i (derive : Derivations) (state : State) : Read int32_t :=
  let t : Trace :=
    if bit_is_set state.speed_status SPEED_HNORM_I = 0 then invoke derive Routine.StateCalcHorizontalSpeedNorm_i (state, [])
    else (state, [])
  { val := t.1.h_speed_norm_i, state := t.1, calls := t.2 }

def StateGetHorizontalSpeedDir_i (derive : Derivations) (state : State) : Read int32_t :=
  let t : Trace :=
    if bit_is_set state.speed_status SPEED_HDIR_I = 0 then invoke derive Routine.StateCalcHorizontalSpeedDir_i (state, [])
    else (state, [])
  { val := t.1.h_speed_dir_i, state := t.1, calls := t.2 }

def StateGetSpeedNed_f (derive : Derivations) (state : State) : Read NedCoor_f :=
  let t : Trace :=
    if bit_is_set state.speed_status SPEED_NED_F = 0 then invoke derive Routine.StateCalcSpeedNed_f (state, [])
    else (state, [])
  { val := t.1.ned_speed_f, state := t.1, calls := t.2 }

def StateGetSpeedEcef_f (derive : Derivations) (state : State) : Read EcefCoor_f :=
  let t : Trace :=
    if bit_is_set state.speed_status SPEED_ECEF_F = 0 then invoke derive Routine.StateCalcSpeedEcef_f (state, [])
    else (state, [])
  { val := t.1.ecef_speed_f, state := t.1, calls := t.2 }

def StateGetHorizontalSpeedNorm_f (derive : Derivations) (state : State) : Read float :=
  let t : Trace :=
    if bit_is_set state.speed_status SPEED_HNORM_F = 0 then invoke derive Routine.StateCalcHorizontalSpeedNorm_f (state, [])
    else (state, [])
  { val := t.1.h_speed_norm_f, state := t.1, calls := t.2 }

def StateGetHorizontalSpeedDir_f (derive : Derivations) (state : State) : Read float :=
  let t : Trace :=
    if bit_is_set state.speed_status SPEED_HDIR_F = 0 then invoke derive Routine.StateCalcHorizontalSpeedDir_f (state, [])
    else (state, [])
  { val := t.1.h_speed_dir_f, state := t.1, calls := t.2 }

def StateGetAccelNed_i (derive : Derivations) (state : State) : Read NedCoor_i :=
  let t : Trace :=
    if bit_is_set state.accel_status ACCEL_NED_I = 0 then invoke derive Routine.StateCalcAccelNed_i (state, [])
    else (state, [])
  { val := t.1.ned_accel_i, state := t.1, calls := t.2 }

def StateGetAccelEcef_i (derive : Derivations) (state : State) : Read EcefCoor_i :=
  let t : Trace :=
    if bit_is_set state.accel_status ACCEL_ECEF_I = 0 then invoke derive Routine.StateCalcAccelEcef_i (state, [])
    else (state, [])
  { val := t.1.ecef_accel_i, state := t.1, calls := t.2 }

def StateGetAccelNed_f (derive : Derivations) (state : State) : Read NedCoor_f :=
  let t : Trace :=
    if bit_is_set state.accel_status ACCEL_NED_F ≠ 0 then invoke derive Routine.StateCalcAccelNed_f (state, [])
    else (state, [])
  { val := t.1.ned_accel_f, state := t.1, calls := t.2 }

def StateGetAccelEcef_f (derive : Derivations) (state : State) : Read EcefCoor_f :=
  let t : Trace :=
    if bit_is_set state.accel_status ACCEL_ECEF_F ≠ 0 then invoke derive Routine.StateCalcAccelEcef_f (state, [])
    else (state, [])
  { val := t.1.ecef_accel_f, state := t.1, calls := t.2 }

def StateGetNedToBodyQuat_i (derive : Derivations) (state : State) : Read Int32Quat :=
  let t : Trace :=
    if bit_is_set state.att_status ATT_QUAT_I = 0 then invoke derive Routine.StateCalcNedToBodyQuat_i (state, [])
    else (state, [])
  { val := t.1.ned_to_body_quat_i, state := t.1, calls := t.2 }

def StateGetNedToBodyRMat_i (derive : Derivations) (state : State) : Read Int32RMat :=
  let t : Trace :=
    if bit_is_set state.att_status ATT_RMAT_I = 0 then invoke derive Routine.StateCalcNedToBodyRMat_i (state, [])
    else (state, [])
  { val := t.1.ned_to_body_rmat_i, state := t.1, calls := t.2 }

def StateGetNedToBodyEulers_i (derive : Derivations) (state : State) : Read Int32Eulers :=
  let t : Trace :=
    if bit_is_set state.att_status ATT_EULER_I = 0 then invoke derive Routine.StateCalcNedToBodyEulers_i (state, [])
    else (state, [])
  { val := t.1.ned_to_body_eulers_i, state := t.1, calls := t.2 }

def StateGetNedToBodyQuat_f (derive : Derivations) (state : State) : Read FloatQuat :=
  let t : Trace :=
    if bit_is_set state.att_status ATT_QUAT_F = 0 then invoke derive Routine.StateCalcNedToBodyQuat_f (state, [])
    else (state, [])
  { val := t.1.ned_to_body_quat_f, state := t.1, calls := t.2 }

def StateGetNedToBodyRMat_f (derive : Derivations) (state : State) : Read FloatRMat :=
  let t : Trace :=
    if bit_is_set state.att_status ATT_RMAT_F = 0 then invoke derive Routine.StateCalcNedToBodyRMat_f (state, [])
    else (state, [])
  { val := t.1.ned_to_body_rmat_f, state := t.1, calls := t.2 }

def StateGetNedToBodyEulers_f (derive : Derivations) (state : State) : Read FloatEulers :=
  let t : Trace :=
    if bit_is_set state.att_status ATT_EULER_F = 0 then invoke derive Routine.StateCalcNedToBodyEulers_f (state, [])
    else (state, [])
  { val := t.1.ned_to_body_eulers_f, state := t.1, calls := t.2 }

def StateGetBodyRates_i (derive : Derivations) (state : State) : Read Int32Rates :=
  let t : Trace :=
    if bit_is_set state.rate_status RATE_I = 0 then invoke derive Routine.StateCalcBodyRates_i (state, [])
    else (state, [])
  { val := t.1.body_rates_i, state := t.1, calls := t.2 }

def StateGetBodyRates_f (derive : Derivations) (state : State) : Read FloatRates :=
  let t : Trace :=
    if bit_is_set state.rate_status RATE_F = 0 then invoke derive Routine.StateCalcBodyRates_f (state, [])
    else (state, [])
  { val := t.1.body_rates_f, state := t.1, calls := t.2 }

def StateGetHorizontalWindspeed_i (derive : Derivations) (state : State) : Read Int32Vect2 :=
  let t : Trace :=
    if bit_is_set state.wind_air_status WINDSPEED_I = 0 then invoke derive Routine.StateCalcHorizontalWindspeed_i (state, [])
    else (state, [])
  { val := t.1.h_windspeed_i, state := t.1, calls := t.2 }

def StateGetAirspeed_i (derive : Derivations) (state : State) : Read int32_t :=
  let t : Trace :=
    if bit_is_set state.wind_air_status AIRSPEED_I = 0 then invoke derive Routine.StateCalcAirspeed_i (state, [])
    else (state, [])
  { val := t.1.airspeed_i, state := t.1, calls := t.2 }

def StateGetHorizontalWindspeed_f (derive : Derivations) (state : State) : Read FloatVect2 :=
  let t : Trace :=
    if bit_is_set state.wind_air_status WINDSPEED_F = 0 then invoke derive Routine.StateCalcHorizontalWindspeed_f (state, [])
    else (state, [])
  { val := t.1.h_windspeed_f, state := t.1, calls := t.2 }

def StateGetAirspeed_f (derive : Derivations) (state : State) : Read float :=
  let t : Trace :=
    if bit_is_set state.wind_air_status AIRSPEED_F = 0 then invoke derive Routine.StateCalcAirspeed_f (state, [])
    else (state, [])
  { val := t.1.airspeed_f, state := t.1, calls := t.2 }

/-! ## Groups -/

/-- The six groups of representations, one per status byte. -/
inductive Group where
  | pos
  | speed
  | accel
  | att
  | rate
  | wind_air
  deriving DecidableEq, Repr

/-- The status byte of a group. -/
def State.status (s : State) : Group → uint8_t
  | .pos => s.pos_status
  | .speed => s.speed_status
  | .accel => s.accel_status
  | .att => s.att_status
  | .rate => s.rate_status
  | .wind_air => s.wind_air_status

/-- Replace the status byte of a group. -/
def State.setStatus (s : State) : Group → uint8_t → State
  | .pos, b => { s with pos_status := b }
  | .speed, b => { s with speed_status := b }
  | .accel, b => { s with accel_status := b }
  | .att, b => { s with att_status := b }
  | .rate, b => { s with rate_status := b }
  | .wind_air, b => { s with wind_air_status := b }

/-- The group whose section of `state.h` defines the set function. -/
def Setter.group : Setter → Group
  | .PositionEcef_i _ => .pos
  | .PositionNed_i _ => .pos
  | .PositionLla_i _ => .pos
  | .PositionUtm_f _ => .pos
  | .PositionEcef_f _ => .pos
  | .PositionNed_f _ => .pos
  | .PositionLla_f _ => .pos
  | .SpeedNed_i _ => .speed
  | .SpeedEcef_i _ => .speed
  | .SpeedNed_f _ => .speed
  | .SpeedEcef_f _ => .speed
  | .AccelNed_i _ => .accel
  | .AccelEcef_i _ => .accel
  | .AccelNed_f _ => .accel
  | .AccelEcef_f _ => .accel
  | .NedToBodyQuat_i _ => .att
  | .NedToBodyRMat_i _ => .att
  | .NedToBodyEulers_i _ => .att
  | .NedToBodyQuat_f _ => .att
  | .NedToBodyRMat_f _ => .att
  | .NedToBodyEulers_f _ => .att
  | .BodyRates_i _ => .rate
  | .BodyRates_f _ => .rate
  | .HorizontalWindspeed_i _ => .wind_air
  | .Airspeed_i _ => .wind_air
  | .HorizontalWindspeed_f _ => .wind_air
  | .Airspeed_f _ => .wind_air

/-- The group whose section of `state.h` declares the routine. -/
def Routine.group : Routine → Group
  | .StateCalcPositionEcef_i => .pos
  | .StateCalcPositionNed_i => .pos
  | .StateCalcPositionLla_i => .pos
  | .StateCalcPositionEcef_f => .pos
  | .StateCalcPositionNed_f => .pos
  | .StateCalcPositionLla_f => .pos
  | .StateCalcSpeedNed_i => .speed
  | .StateCalcSpeedEcef_i => .speed
  | .StateCalcHorizontalSpeedNorm_i => .speed
  | .StateCalcHorizontalSpeedDir_i => .speed
  | .StateCalcSpeedNed_f => .speed
  | .StateCalcSpeedEcef_f => .speed
  | .StateCalcHorizontalSpeedNorm_f => .speed
  | .StateCalcHorizontalSpeedDir_f => .speed
  | .StateCalcAccelNed_i => .accel
  | .StateCalcAccelEcef_i => .accel
  | .StateCalcAccelNed_f => .accel
  | .StateCalcAccelEcef_f => .accel
  | .StateCalcNedToBodyQuat_i => .att
  | .StateCalcNedToBodyRMat_i => .att
  | .StateCalcNedToBodyEulers_i => .att
  | .StateCalcNedToBodyQuat_f => .att
  | .StateCalcNedToBodyRMat_f => .att
  | .StateCalcNedToBodyEulers_f => .att
  | .StateCalcBodyRates_i => .rate
  | .StateCalcBodyRates_f => .rate
  | .StateCalcHorizontalWindspeed_i => .wind_air
  | .StateCalcAirspeed_i => .wind_air
  | .StateCalcHorizontalWindspeed_f => .wind_air
  | .StateCalcAirspeed_f => .wind_air

/-- The flag macro of the representation the routine computes (the one its
get function tests). -/
def Routine.flag : Routine → MacroText
  | .StateCalcPositionEcef_i => POS_ECEF_I
  | .StateCalcPositionNed_i => POS_NED_I
  | .StateCalcPositionLla_i => POS_LLA_I
  | .StateCalcPositionEcef_f => POS_ECEF_F
  | .StateCalcPositionNed_f => POS_NED_F
  | .StateCalcPositionLla_f => POS_LLA_F
  | .StateCalcSpeedNed_i => SPEED_NED_I
  | .StateCalcSpeedEcef_i => SPEED_ECEF_I
  | .StateCalcHorizontalSpeedNorm_i => SPEED_HNORM_I
  | .StateCalcHorizontalSpeedDir_i => SPEED_HDIR_I
  | .StateCalcSpeedNed_f => SPEED_NED_F
  | .StateCalcSpeedEcef_f => SPEED_ECEF_F
  | .StateCalcHorizontalSpeedNorm_f => SPEED_HNORM_F
  | .StateCalcHorizontalSpeedDir_f => SPEED_HDIR_F
  | .StateCalcAccelNed_i => ACCEL_NED_I
  | .StateCalcAccelEcef_i => ACCEL_ECEF_I
  | .StateCalcAccelNed_f => ACCEL_NED_F
  | .StateCalcAccelEcef_f => ACCEL_ECEF_F
  | .StateCalcNedToBodyQuat_i => ATT_QUAT_I
  | .StateCalcNedToBodyRMat_i => ATT_RMAT_I
  | .StateCalcNedToBodyEulers_i => ATT_EULER_I
  | .StateCalcNedToBodyQuat_f => ATT_QUAT_F
  | .StateCalcNedToBodyRMat_f => ATT_RMAT_F
  | .StateCalcNedToBodyEulers_f => ATT_EULER_F
  | .StateCalcBodyRates_i => RATE_I
  | .StateCalcBodyRates_f => RATE_F
  | .StateCalcHorizontalWindspeed_i => WINDSPEED_I
  | .StateCalcAirspeed_i => AIRSPEED_I
  | .StateCalcHorizontalWindspeed_f => WINDSPEED_F
  | .StateCalcAirspeed_f => AIRSPEED_F

/-! ## Observations used in the statements -/

/-- A status byte with exactly one of its eight bits set: a power of two
below 256. -/
def OneBitSet (x : uint8_t) : Prop :=
  ∃ j, j < 8 ∧ x = 2 ^ j

instance (x : uint8_t) : Decidable (OneBitSet x) := by
  unfold OneBitSet
  infer_instance

/-- Whether the bit that `SetBit(x, F)` sets and `ClearBit(x, F)` clears is
one in the status byte `x`: the test `x & (1 << F)` after expansion. -/
def flagBit (x : uint8_t) (f : MacroText) : Bool :=
  x &&& oneShlFlag f != 0

/-- The state of a zero-initialised `struct State`: every status byte
cleared, no origin initialised. -/
def zeroState : State :=
  { pos_status := 0
    ecef_pos_i := ⟨0, 0, 0⟩
    lla_pos_i := ⟨0, 0, 0⟩
    ned_origin_i := ⟨⟨0, 0, 0⟩, ⟨0, 0, 0⟩, ⟨fun _ => 0⟩⟩
    ned_initialised_i := false
    ned_pos_i := ⟨0, 0, 0⟩
    utm_pos_f := ⟨⟨0⟩, ⟨0⟩, ⟨0⟩⟩
    utm_zone_f := 0
    alt_agl_f := ⟨0⟩
    lla_pos_f := ⟨⟨0⟩, ⟨0⟩, ⟨0⟩⟩
    ecef_pos_f := ⟨⟨0⟩, ⟨0⟩, ⟨0⟩⟩
    ned_origin_f := ⟨⟨⟨0⟩, ⟨0⟩, ⟨0⟩⟩, ⟨⟨0⟩, ⟨0⟩, ⟨0⟩⟩, ⟨fun _ => ⟨0⟩⟩⟩
    ned_initialised_f := false
    ned_pos_f := ⟨⟨0⟩, ⟨0⟩, ⟨0⟩⟩
    speed_status := 0
    ecef_speed_i := ⟨0, 0, 0⟩
    ned_speed_i := ⟨0, 0, 0⟩
    h_speed_norm_i := 0
    h_speed_dir_i := 0
    ecef_speed_f := ⟨⟨0⟩, ⟨0⟩, ⟨0⟩⟩
    ned_speed_f := ⟨⟨0⟩, ⟨0⟩, ⟨0⟩⟩
    h_speed_norm_f := ⟨0⟩
    h_speed_dir_f := ⟨0⟩
    accel_status := 0
    ned_accel_i := ⟨0, 0, 0⟩
    ecef_accel_i := ⟨0, 0, 0⟩
    ned_accel_f := ⟨⟨0⟩, ⟨0⟩, ⟨0⟩⟩
    ecef_accel_f := ⟨⟨0⟩, ⟨0⟩, ⟨0⟩⟩
    att_status := 0
    ned_to_body_quat_i := ⟨0, 0, 0, 0⟩
    ned_to_body_eulers_i := ⟨0, 0, 0⟩
    ned_to_body_rmat_i := ⟨fun _ => 0⟩
    ned_to_body_quat_f := ⟨⟨0⟩, ⟨0⟩, ⟨0⟩, ⟨0⟩⟩
    ned_to_body_eulers_f := ⟨⟨0⟩, ⟨0⟩, ⟨0⟩⟩
    ned_to_body_rmat_f := ⟨fun _ => ⟨0⟩⟩
    rate_status := 0
    body_rates_i := ⟨0, 0, 0⟩
    body_rates_f := ⟨⟨0⟩, ⟨0⟩, ⟨0⟩⟩
    wind_air_status := 0
    h_windspeed_i := ⟨0, 0⟩
    airspeed_i := 0
    h_windspeed_f := ⟨⟨0⟩, ⟨0⟩⟩
    airspeed_f := ⟨0⟩ }

/-- A derivation that obeys the additive contract in the simplest way: it
keeps the value already in the slot and marks the representation valid with
`SetBit(status, FLAG)`, leaving every other bit of the status byte alone. -/
def markValid : Derivations :=
  fun r s => s.setStatus r.group (SetBit (s.status r.group) r.flag)

/-- The relation between the status byte `x` before and `x'` after a
Wind/Airspeed setter that runs `ClearBit(x, other); SetBit(x, written)`: the
bit of `written` is one, the bit of `other` is zero and the six remaining bits
are as they were. -/
def WindAirUpdate (x x' : uint8_t) (written other : MacroText) : Prop :=
  flagBit x' written = true ∧ flagBit x' other = false ∧
  ∀ i, i < 8 → 2 ^ i ≠ oneShlFlag written → 2 ^ i ≠ oneShlFlag other →
    x'.testBit i = x.testBit i

/-! ## Tables over the set and get functions -/

/-- The flag macro the set function names: the `FLAG` of its `(1 << FLAG)`,
or of its `SetBit` for the Wind/Airspeed group. -/
def Setter.flag : Setter → MacroText
  | .PositionEcef_i _ => POS_ECEF_I
  | .PositionNed_i _ => POS_NED_I
  | .PositionLla_i _ => POS_LLA_I
  | .PositionUtm_f _ => POS_UTM_F
  | .PositionEcef_f _ => POS_ECEF_F
  | .PositionNed_f _ => POS_NED_F
  | .PositionLla_f _ => POS_LLA_F
  | .SpeedNed_i _ => SPEED_NED_I
  | .SpeedEcef_i _ => SPEED_ECEF_I
  | .SpeedNed_f _ => SPEED_NED_F
  | .SpeedEcef_f _ => SPEED_ECEF_F
  | .AccelNed_i _ => ACCEL_NED_I
  | .AccelEcef_i _ => ACCEL_ECEF_I
  | .AccelNed_f _ => ACCEL_NED_F
  | .AccelEcef_f _ => ACCEL_ECEF_F
  | .NedToBodyQuat_i _ => ATT_QUAT_I
  | .NedToBodyRMat_i _ => ATT_RMAT_I
  | .NedToBodyEulers_i _ => ATT_EULER_I
  | .NedToBodyQuat_f _ => ATT_QUAT_F
  | .NedToBodyRMat_f _ => ATT_RMAT_F
  | .NedToBodyEulers_f _ => ATT_EULER_F
  | .BodyRates_i _ => RATE_I
  | .BodyRates_f _ => RATE_F
  | .HorizontalWindspeed_i _ => WINDSPEED_I
  | .Airspeed_i _ => AIRSPEED_I
  | .HorizontalWindspeed_f _ => WINDSPEED_F
  | .Airspeed_f _ => AIRSPEED_F

/-- The flag macros defined for each group, in the order of their `#define`
lines. -/
def Group.flags : Group → List MacroText
  | .pos => [POS_ECEF_I, POS_NED_I, POS_LLA_I, POS_UTM_I, POS_ECEF_F, POS_NED_F, POS_LLA_F,
      POS_UTM_F]
  | .speed => [SPEED_ECEF_I, SPEED_NED_I, SPEED_HNORM_I, SPEED_HDIR_I, SPEED_ECEF_F,
      SPEED_NED_F, SPEED_HNORM_F, SPEED_HDIR_F]
  | .accel => [ACCEL_ECEF_I, ACCEL_NED_I, ACCEL_ECEF_F, ACCEL_NED_F]
  | .att => [ATT_QUAT_I, ATT_EULER_I, ATT_RMAT_I, ATT_QUAT_F, ATT_EULER_F, ATT_RMAT_F]
  | .rate => [RATE_I, RATE_F]
  | .wind_air => [WINDSPEED_I, AIRSPEED_I, WINDSPEED_F, AIRSPEED_F]

/-- The state left and the routines invoked by the get function of the
representation that routine `r` computes (`StateGetX` for `StateCalcX`). -/
def getterTrace (derive : Derivations) : Routine → State → Trace
  | .StateCalcPositionEcef_i, state =>
    ((StateGetPositionEcef_i derive state).state, (StateGetPositionEcef_i derive state).calls)
  | .StateCalcPositionNed_i, state =>
    ((StateGetPositionNed_i derive state).state, (StateGetPositionNed_i derive state).calls)
  | .StateCalcPositionLla_i, state =>
    ((StateGetPositionLla_i derive state).state, (StateGetPositionLla_i derive state).calls)
  | .StateCalcPositionEcef_f, state =>
    ((StateGetPositionEcef_f derive state).state, (StateGetPositionEcef_f derive state).calls)
  | .StateCalcPositionNed_f, state =>
    ((StateGetPositionNed_f derive state).state, (StateGetPositionNed_f derive state).calls)
  | .StateCalcPositionLla_f, state =>
    ((StateGetPositionLla_f derive state).state, (StateGetPositionLla_f derive state).calls)
  | .StateCalcSpeedNed_i, state =>
    ((StateGetSpeedNed_i derive state).state, (StateGetSpeedNed_i derive state).calls)
  | .StateCalcSpeedEcef_i, state =>
    ((StateGetSpeedEcef_i derive state).state, (StateGetSpeedEcef_i derive state).calls)
  | .StateCalcHorizontalSpeedNorm_i, state =>
    ((StateGetHorizontalSpeedNorm_i derive state).state, (StateGetHorizontalSpeedNorm_i derive state).calls)
  | .StateCalcHorizontalSpeedDir_i, state =>
    ((StateGetHorizontalSpeedDir_i derive state).state, (StateGetHorizontalSpeedDir_i derive state).calls)
  | .StateCalcSpeedNed_f, state =>
    ((StateGetSpeedNed_f derive state).state, (StateGetSpeedNed_f derive state).calls)
  | .StateCalcSpeedEcef_f, state =>
    ((StateGetSpeedEcef_f derive state).state, (StateGetSpeedEcef_f derive state).calls)
  | .StateCalcHorizontalSpeedNorm_f, state =>
    ((StateGetHorizontalSpeedNorm_f derive state).state, (StateGetHorizontalSpeedNorm_f derive state).calls)
  | .StateCalcHorizontalSpeedDir_f, state =>
    ((StateGetHorizontalSpeedDir_f derive state).state, (StateGetHorizontalSpeedDir_f derive state).calls)
  | .StateCalcAccelNed_i, state =>
    ((StateGetAccelNed_i derive state).state, (StateGetAccelNed_i derive state).calls)
  | .StateCalcAccelEcef_i, state =>
    ((StateGetAccelEcef_i derive state).state, (StateGetAccelEcef_i derive state).calls)
  | .StateCalcAccelNed_f, state =>
    ((StateGetAccelNed_f derive state).state, (StateGetAccelNed_f derive state).calls)
  | .StateCalcAccelEcef_f, state =>
    ((StateGetAccelEcef_f derive state).state, (StateGetAccelEcef_f derive state).calls)
  | .StateCalcNedToBodyQuat_i, state =>
    ((StateGetNedToBodyQuat_i derive state).state, (StateGetNedToBodyQuat_i derive state).calls)
  | .StateCalcNedToBodyRMat_i, state =>
    ((StateGetNedToBodyRMat_i derive state).state, (StateGetNedToBodyRMat_i derive state).calls)
  | .StateCalcNedToBodyEulers_i, state =>
    ((StateGetNedToBodyEulers_i derive state).state, (StateGetNedToBodyEulers_i derive state).calls)
  | .StateCalcNedToBodyQuat_f, state =>
    ((StateGetNedToBodyQuat_f derive state).state, (StateGetNedToBodyQuat_f derive state).calls)
  | .StateCalcNedToBodyRMat_f, state =>
    ((StateGetNedToBodyRMat_f derive state).state, (StateGetNedToBodyRMat_f derive state).calls)
  | .StateCalcNedToBodyEulers_f, state =>
    ((StateGetNedToBodyEulers_f derive state).state, (StateGetNedToBodyEulers_f derive state).calls)
  | .StateCalcBodyRates_i, state =>
    ((StateGetBodyRates_i derive state).state, (StateGetBodyRates_i derive state).calls)
  | .StateCalcBodyRates_f, state =>
    ((StateGetBodyRates_f derive state).state, (StateGetBodyRates_f derive state).calls)
  | .StateCalcHorizontalWindspeed_i, state =>
    ((StateGetHorizontalWindspeed_i derive state).state, (StateGetHorizontalWindspeed_i derive state).calls)
  | .StateCalcAirspeed_i, state =>
    ((StateGetAirspeed_i derive state).state, (StateGetAirspeed_i derive state).calls)
  | .StateCalcHorizontalWindspeed_f, state =>
    ((StateGetHorizontalWindspeed_f derive state).state, (StateGetHorizontalWindspeed_f derive state).calls)
  | .StateCalcAirspeed_f, state =>
    ((StateGetAirspeed_f derive state).state, (StateGetAirspeed_f derive state).calls)

/-! ## Origin gating

`state.h` declares `StateCalcPositionNed_i` and `StateCalcPositionNed_f` and
calls them from the NED position getters, but their definitions are in
`state.c`.  A `void` routine has no error result: a routine that meets a
precondition failure stops the program, and the getter that called it does
not return. -/

/-- The failure a routine can stop with (section 7 of the specification treats
a missing origin and a missing source representation as the same kind). -/
inductive Failure where
  | precondition
  deriving DecidableEq, Repr

/-- An implementation of the transformation functions in which a routine
either returns, leaving a new state, or stops with a failure. -/
abbrev GatedDerivations := Routine → State → Except Failure State

/-- The statement `StateCalcX();` for a routine that may stop. -/
def Gated.invoke (derive : GatedDerivations) (r : Routine) (t : Trace) :
    Except Failure Trace :=
  match derive r t.1 with
  | Except.ok s => Except.ok (s, t.2 ++ [r])
  | Except.error e => Except.error e

/-- The body of `StateGetPositionNed_i` over routines that may stop: the same
test, the same call and the same `return state.ned_pos_i`, reached only
when the routine returned. -/
def Gated.StateGetPositionNed_i (derive : GatedDerivations) (state : State) :
    Except Failure (Read NedCoor_i) :=
  let t : Except Failure Trace :=
    if bit_is_set state.pos_status POS_NED_I = 0 then
      Gated.invoke derive Routine.StateCalcPositionNed_i (state, [])
    else Except.ok (state, [])
  match t with
  | Except.ok t => Except.ok { val := t.1.ned_pos_i, state := t.1, calls := t.2 }
  | Except.error e => Except.error e

/-- The body of `StateGetPositionNed_f` over routines that may stop. -/
def Gated.StateGetPositionNed_f (derive : GatedDerivations) (state : State) :
    Except Failure (Read NedCoor_f) :=
  let t : Except Failure Trace :=
    if bit_is_set state.pos_status POS_NED_F = 0 then
      Gated.invoke derive Routine.StateCalcPositionNed_f (state, [])
    else Except.ok (state, [])
  match t with
  | Except.ok t => Except.ok { val := t.1.ned_pos_f, state := t.1, calls := t.2 }
  | Except.error e => Except.error e

theorem oneShlFlag_oneShl (k : Nat) : oneShlFlag (oneShl k) = 2 ^ (k + 1) := by
  simp [oneShlFlag, pasteRight, evalChain, oneShl, ShiftOp.apply, Nat.shiftLeft_eq, pow_succ,
    Nat.mul_comm]

theorem bit_is_set_oneShl_zero (x : Nat) : bit_is_set x (oneShl 0) = (x / 2) % 2 := by
  simp [bit_is_set, pasteRight, evalChain, oneShl, ShiftOp.apply, Nat.shiftRight_eq_div_pow,
    Nat.and_one_is_mod]

theorem bit_is_set_oneShl_succ (x k : Nat) : bit_is_set x (oneShl (k + 1)) = 0 := by
  have h : (x >>> 1) <<< (k + 1) = 2 * ((x >>> 1) * 2 ^ k) := by
    rw [Nat.shiftLeft_eq, pow_succ]
    ring
  simp only [bit_is_set, pasteRight, evalChain, oneShl, ShiftOp.apply, List.foldl_cons,
    List.foldl_nil, Nat.and_one_is_mod, h]
  omega

theorem testBit_mod_256 (x i : Nat) (hi : i < 8) : (x % 256).testBit i = x.testBit i := by
  have h := Nat.testBit_mod_two_pow x 8 i
  simpa [hi] using h

theorem testBit_allOnes32 (i : Nat) (hi : i < 32) : (4294967295 : Nat).testBit i = true := by
  have h := Nat.testBit_two_pow_sub_one 32 i
  simpa [hi] using h

theorem and_two_pow_bne_zero (x n : Nat) : (x &&& 2 ^ n != 0) = x.testBit n := by
  cases h : x.testBit n with
  | false =>
    have h0 : x &&& 2 ^ n = 0 := by
      apply Nat.eq_of_testBit_eq
      intro i
      simp only [Nat.testBit_and, Nat.testBit_two_pow, Nat.zero_testBit]
      by_cases hi : n = i
      · subst hi; simp [h]
      · simp [hi]
    simp [h0]
  | true =>
    have h1 : (x &&& 2 ^ n).testBit n = true := by
      simp [Nat.testBit_and, Nat.testBit_two_pow, h]
    have h0 : x &&& 2 ^ n ≠ 0 := by
      intro h0
      rw [h0] at h1
      simp at h1
    simpa using h0

theorem flagBit_oneShl (x k : Nat) : flagBit x (oneShl k) = x.testBit (k + 1) := by
  rw [flagBit, oneShlFlag_oneShl, and_two_pow_bne_zero]

/-- Bit `i` of the status byte after `ClearBit(a, 1<<kc); SetBit(a, 1<<ks)`. -/
theorem testBit_SetBit_ClearBit (a kc ks i : Nat) (hi : i < 8) :
    (SetBit (ClearBit a (oneShl kc)) (oneShl ks)).testBit i
      = ((a.testBit i && !decide (kc + 1 = i)) || decide (ks + 1 = i)) := by
  simp only [SetBit, ClearBit, toUint8, oneShlFlag_oneShl]
  rw [testBit_mod_256 _ _ hi, Nat.testBit_or, testBit_mod_256 _ _ hi, Nat.testBit_and,
    Nat.testBit_xor, testBit_allOnes32 i (by omega), Nat.testBit_two_pow, Nat.testBit_two_pow]
  simp

theorem windAirUpdate_SetBit_ClearBit (a kc ks : Nat) (hks : ks + 1 < 8) (hkc : kc + 1 < 8)
    (hne : kc ≠ ks) :
    WindAirUpdate a (SetBit (ClearBit a (oneShl kc)) (oneShl ks)) (oneShl ks) (oneShl kc) := by
  refine ⟨?_, ?_, ?_⟩
  · rw [flagBit_oneShl, testBit_SetBit_ClearBit _ _ _ _ hks]
    simp
  · rw [flagBit_oneShl, testBit_SetBit_ClearBit _ _ _ _ hkc]
    simp
    omega
  · intro i hi h1 h2
    rw [oneShlFlag_oneShl] at h1 h2
    have e1 : ¬ ks + 1 = i := fun e => h1 (by rw [e])
    have e2 : ¬ kc + 1 = i := fun e => h2 (by rw [e])
    rw [testBit_SetBit_ClearBit _ _ _ _ hi]
    simp [e1, e2]

/-! ## Set then get -/

/-- C1: set-then-get exclusivity fails on the code.  After
`StateSetPositionNed_i(v)` the status byte is 4 (`1 << 1<<1`), the validity
test of `StateGetPositionNed_i` on it (`(4 >> 1<<1) & 1`) is 0, and so the
getter invokes `StateCalcPositionNed_i` once and returns whatever that
routine leaves in the slot, for every prior state, argument and
implementation of the routine. -/
theorem C1_set_then_get_PositionNed_i_invokes_derivation :
    ∀ (derive : Derivations) (state : State) (v : NedCoor_i),
      (StateSetPositionNed_i v state).pos_status = 4 ∧
      bit_is_set (StateSetPositionNed_i v state).pos_status POS_NED_I = 0 ∧
      (StateGetPositionNed_i derive (StateSetPositionNed_i v state)).calls
        = [Routine.StateCalcPositionNed_i] ∧
      (StateGetPositionNed_i derive (StateSetPositionNed_i v state)).val
        = (derive Routine.StateCalcPositionNed_i (StateSetPositionNed_i v state)).ned_pos_i := by
  intro derive state v
  have h : bit_is_set (StateSetPositionNed_i v state).pos_status POS_NED_I = 0 :=
    bit_is_set_oneShl_succ _ 0
  refine ⟨rfl, h, ?_, ?_⟩
  · simp only [StateGetPositionNed_i, h, if_true, invoke, List.nil_append]
  · simp only [StateGetPositionNed_i, h, if_true, invoke]

/-! ## The getters -/

/-- C2: the getter contract fails for the two float acceleration getters.
In every state their validity test is 0 (it fails), yet neither
`StateGetAccelNed_f` nor `StateGetAccelEcef_f` invokes its derivation
routine: each returns the stored slot and leaves the state as it was. -/
theorem C2_accel_float_getters_skip_derivation_when_test_fails :
    ∀ (derive : Derivations) (state : State),
      (bit_is_set state.accel_status ACCEL_NED_F = 0 ∧
        (StateGetAccelNed_f derive state).calls = [] ∧
        (StateGetAccelNed_f derive state).state = state ∧
        (StateGetAccelNed_f derive state).val = state.ned_accel_f) ∧
      (bit_is_set state.accel_status ACCEL_ECEF_F = 0 ∧
        (StateGetAccelEcef_f derive state).calls = [] ∧
        (StateGetAccelEcef_f derive state).state = state ∧
        (StateGetAccelEcef_f derive state).val = state.ecef_accel_f) := by
  intro derive state
  have h1 : bit_is_set state.accel_status ACCEL_NED_F = 0 := bit_is_set_oneShl_succ _ 3
  have h2 : bit_is_set state.accel_status ACCEL_ECEF_F = 0 := bit_is_set_oneShl_succ _ 2
  refine ⟨⟨h1, ?_, ?_, ?_⟩, ⟨h2, ?_, ?_, ?_⟩⟩ <;>
    simp [StateGetAccelNed_f, StateGetAccelEcef_f, h1, h2]

/-- C3: memoisation fails on the code.  Two consecutive calls of
`StateGetPositionNed_i` invoke `StateCalcPositionNed_i` twice, whatever the
routine does and whatever the state is; in particular with the additive
routine `markValid` on the zero-initialised state, where the first call has
already marked the representation with `SetBit(pos_status, POS_NED_I)`. -/
theorem C3_get_PositionNed_i_twice_derives_twice :
    (∀ (derive : Derivations) (state : State),
      (StateGetPositionNed_i derive state).calls
          ++ (StateGetPositionNed_i derive (StateGetPositionNed_i derive state).state).calls
        = [Routine.StateCalcPositionNed_i, Routine.StateCalcPositionNed_i]) ∧
    (StateGetPositionNed_i markValid zeroState).state.pos_status = 4 ∧
    (StateGetPositionNed_i markValid zeroState).calls
        ++ (StateGetPositionNed_i markValid (StateGetPositionNed_i markValid zeroState).state).calls
      = [Routine.StateCalcPositionNed_i, Routine.StateCalcPositionNed_i] := by
  have key : ∀ (derive : Derivations) (state : State),
      (StateGetPositionNed_i derive state).calls = [Routine.StateCalcPositionNed_i] := by
    intro derive state
    have h : bit_is_set state.pos_status POS_NED_I = 0 := bit_is_set_oneShl_succ _ 0
    simp only [StateGetPositionNed_i, h, if_true, invoke, List.nil_append]
  refine ⟨?_, ?_, ?_⟩
  · intro derive state
    rw [key, key]
    rfl
  · decide
  · rw [key, key]
    rfl

/-! ## Status bytes written by the setters -/

/-- C4: `StateSetPositionUtm_f` does not leave exactly one bit set.  Its
assignment `(uint8_t)(1 << 1<<7)` stores 256 reduced to eight bits, so
`pos_status` is 0 after the call, for every prior state and argument; the
six other position setters store 2, 4, 8, 32, 64 and 128. -/
theorem C4_StateSetPositionUtm_f_clears_pos_status :
    (∀ (utm_pos : FloatVect3) (state : State),
      (StateSetPositionUtm_f utm_pos state).pos_status = 0 ∧
      ¬ OneBitSet (StateSetPositionUtm_f utm_pos state).pos_status) ∧
    (∀ (state : State),
      (∀ v, (StateSetPositionEcef_i v state).pos_status = 2) ∧
      (∀ v, (StateSetPositionNed_i v state).pos_status = 4) ∧
      (∀ v, (StateSetPositionLla_i v state).pos_status = 8) ∧
      (∀ v, (StateSetPositionEcef_f v state).pos_status = 32) ∧
      (∀ v, (StateSetPositionNed_f v state).pos_status = 64) ∧
      (∀ v, (StateSetPositionLla_f v state).pos_status = 128)) := by
  refine ⟨fun utm_pos state => ⟨rfl, ?_⟩, fun state => ⟨?_, ?_, ?_, ?_, ?_, ?_⟩⟩
  · show ¬ OneBitSet 0
    decide
  all_goals intro v; rfl

/-- C5: every setter of the Speed, Acceleration, Attitude and Angular-Rate
groups leaves exactly one bit set in the status byte of its group, and the
byte it leaves is the same from every prior state. -/
theorem C5_speed_accel_att_rate_setters_exclusive (op : Setter)
    (h : op.group = Group.speed ∨ op.group = Group.accel ∨ op.group = Group.att ∨
      op.group = Group.rate) (state : State) :
    OneBitSet ((op.run state).status op.group) ∧
    ∀ state' : State, (op.run state').status op.group = (op.run state).status op.group := by
  cases op <;> simp [Setter.group] at h <;> refine ⟨?_, fun _ => rfl⟩ <;>
    first
      | exact ⟨1, by decide, rfl⟩
      | exact ⟨2, by decide, rfl⟩
      | exact ⟨3, by decide, rfl⟩
      | exact ⟨4, by decide, rfl⟩
      | exact ⟨5, by decide, rfl⟩
      | exact ⟨6, by decide, rfl⟩

/-- The statement of C5 at `StateSetSpeedNed_f` on the zero-initialised
state. -/
theorem C5_speed_accel_att_rate_setters_exclusive_witness :
    (Setter.SpeedNed_f ⟨⟨1⟩, ⟨2⟩, ⟨3⟩⟩).group = Group.speed ∧
    OneBitSet (((Setter.SpeedNed_f ⟨⟨1⟩, ⟨2⟩, ⟨3⟩⟩).run zeroState).status Group.speed) ∧
    ∀ state' : State,
      ((Setter.SpeedNed_f ⟨⟨1⟩, ⟨2⟩, ⟨3⟩⟩).run state').status Group.speed
        = ((Setter.SpeedNed_f ⟨⟨1⟩, ⟨2⟩, ⟨3⟩⟩).run zeroState).status Group.speed :=
  ⟨rfl, C5_speed_accel_att_rate_setters_exclusive (Setter.SpeedNed_f ⟨⟨1⟩, ⟨2⟩, ⟨3⟩⟩)
    (Or.inl rfl) zeroState⟩

/-! ## Effect of the setters on the slots -/

/-- C6: each of the 27 set functions is total and leaves its argument in the
value slot of its representation, component for component, from every prior
state. -/
theorem C6_setters_store_their_argument :
    (∀ (ecef_pos : EcefCoor_i) (state : State), (StateSetPositionEcef_i ecef_pos state).ecef_pos_i = ecef_pos) ∧
    (∀ (ned_pos : NedCoor_i) (state : State), (StateSetPositionNed_i ned_pos state).ned_pos_i = ned_pos) ∧
    (∀ (lla_pos : LlaCoor_i) (state : State), (StateSetPositionLla_i lla_pos state).lla_pos_i = lla_pos) ∧
    (∀ (utm_pos : FloatVect3) (state : State), (StateSetPositionUtm_f utm_pos state).utm_pos_f = utm_pos) ∧
    (∀ (ecef_pos : EcefCoor_f) (state : State), (StateSetPositionEcef_f ecef_pos state).ecef_pos_f = ecef_pos) ∧
    (∀ (ned_pos : NedCoor_f) (state : State), (StateSetPositionNed_f ned_pos state).ned_pos_f = ned_pos) ∧
    (∀ (lla_pos : LlaCoor_f) (state : State), (StateSetPositionLla_f lla_pos state).lla_pos_f = lla_pos) ∧
    (∀ (ned_speed : NedCoor_i) (state : State), (StateSetSpeedNed_i ned_speed state).ned_speed_i = ned_speed) ∧
    (∀ (ecef_speed : EcefCoor_i) (state : State), (StateSetSpeedEcef_i ecef_speed state).ecef_speed_i = ecef_speed) ∧
    (∀ (ned_speed : NedCoor_f) (state : State), (StateSetSpeedNed_f ned_speed state).ned_speed_f = ned_speed) ∧
    (∀ (ecef_speed : EcefCoor_f) (state : State), (StateSetSpeedEcef_f ecef_speed state).ecef_speed_f = ecef_speed) ∧
    (∀ (ned_accel : NedCoor_i) (state : State), (StateSetAccelNed_i ned_accel state).ned_accel_i = ned_accel) ∧
    (∀ (ecef_accel : EcefCoor_i) (state : State), (StateSetAccelEcef_i ecef_accel state).ecef_accel_i = ecef_accel) ∧
    (∀ (ned_accel : NedCoor_f) (state : State), (StateSetAccelNed_f ned_accel state).ned_accel_f = ned_accel) ∧
    (∀ (ecef_accel : EcefCoor_f) (state : State), (StateSetAccelEcef_f ecef_accel state).ecef_accel_f = ecef_accel) ∧
    (∀ (ned_to_body_quat : Int32Quat) (state : State), (StateSetNedToBodyQuat_i ned_to_body_quat state).ned_to_body_quat_i = ned_to_body_quat) ∧
    (∀ (ned_to_body_rmat : Int32RMat) (state : State), (StateSetNedToBodyRMat_i ned_to_body_rmat state).ned_to_body_rmat_i = ned_to_body_rmat) ∧
    (∀ (ned_to_body_eulers : Int32Eulers) (state : State), (StateSetNedToBodyEulers_i ned_to_body_eulers state).ned_to_body_eulers_i = ned_to_body_eulers) ∧
    (∀ (ned_to_body_quat : FloatQuat) (state : State), (StateSetNedToBodyQuat_f ned_to_body_quat state).ned_to_body_quat_f = ned_to_body_quat) ∧
    (∀ (ned_to_body_rmat : FloatRMat) (state : State), (StateSetNedToBodyRMat_f ned_to_body_rmat state).ned_to_body_rmat_f = ned_to_body_rmat) ∧
    (∀ (ned_to_body_eulers : FloatEulers) (state : State), (StateSetNedToBodyEulers_f ned_to_body_eulers state).ned_to_body_eulers_f = ned_to_body_eulers) ∧
    (∀ (body_rate : Int32Rates) (state : State), (StateSetBodyRates_i body_rate state).body_rates_i = body_rate) ∧
    (∀ (body_rate : FloatRates) (state : State), (StateSetBodyRates_f body_rate state).body_rates_f = body_rate) ∧
    (∀ (h_windspeed : Int32Vect2) (state : State), (StateSetHorizontalWindspeed_i h_windspeed state).h_windspeed_i = h_windspeed) ∧
    (∀ (airspeed : int32_t) (state : State), (StateSetAirspeed_i airspeed state).airspeed_i = airspeed) ∧
    (∀ (h_windspeed : FloatVect2) (state : State), (StateSetHorizontalWindspeed_f h_windspeed state).h_windspeed_f = h_windspeed) ∧
    (∀ (airspeed : float) (state : State), (StateSetAirspeed_f airspeed state).airspeed_f = airspeed) := by
  refine ⟨?_, ?_, ?_, ?_, ?_, ?_, ?_, ?_, ?_, ?_, ?_, ?_, ?_, ?_, ?_, ?_, ?_, ?_, ?_, ?_, ?_, ?_, ?_, ?_, ?_, ?_, ?_⟩ <;> intro v state <;> rfl

/-- C7: frame of the setters.  Putting the prior value back into the value
slot of the written representation and the prior status byte back into the
status byte of its group recovers the prior state exactly: no other field of
`State` (status bytes and slots of the other groups, other slots of the same
group, origins, initialisation flags, `utm_zone_f`, `alt_agl_f`) is changed by
the call. -/
theorem C7_setters_change_only_slot_and_group_status :
    (∀ (ecef_pos : EcefCoor_i) (state : State),
      { StateSetPositionEcef_i ecef_pos state with
        ecef_pos_i := state.ecef_pos_i
        pos_status := state.pos_status } = state) ∧
    (∀ (ned_pos : NedCoor_i) (state : State),
      { StateSetPositionNed_i ned_pos state with
        ned_pos_i := state.ned_pos_i
        pos_status := state.pos_status } = state) ∧
    (∀ (lla_pos : LlaCoor_i) (state : State),
      { StateSetPositionLla_i lla_pos state with
        lla_pos_i := state.lla_pos_i
        pos_status := state.pos_status } = state) ∧
    (∀ (utm_pos : FloatVect3) (state : State),
      { StateSetPositionUtm_f utm_pos state with
        utm_pos_f := state.utm_pos_f
        pos_status := state.pos_status } = state) ∧
    (∀ (ecef_pos : EcefCoor_f) (state : State),
      { StateSetPositionEcef_f ecef_pos state with
        ecef_pos_f := state.ecef_pos_f
        pos_status := state.pos_status } = state) ∧
    (∀ (ned_pos : NedCoor_f) (state : State),
      { StateSetPositionNed_f ned_pos state with
        ned_pos_f := state.ned_pos_f
        pos_status := state.pos_status } = state) ∧
    (∀ (lla_pos : LlaCoor_f) (state : State),
      { StateSetPositionLla_f lla_pos state with
        lla_pos_f := state.lla_pos_f
        pos_status := state.pos_status } = state) ∧
    (∀ (ned_speed : NedCoor_i) (state : State),
      { StateSetSpeedNed_i ned_speed state with
        ned_speed_i := state.ned_speed_i
        speed_status := state.speed_status } = state) ∧
    (∀ (ecef_speed : EcefCoor_i) (state : State),
      { StateSetSpeedEcef_i ecef_speed state with
        ecef_speed_i := state.ecef_speed_i
        speed_status := state.speed_status } = state) ∧
    (∀ (ned_speed : NedCoor_f) (state : State),
      { StateSetSpeedNed_f ned_speed state with
        ned_speed_f := state.ned_speed_f
        speed_status := state.speed_status } = state) ∧
    (∀ (ecef_speed : EcefCoor_f) (state : State),
      { StateSetSpeedEcef_f ecef_speed state with
        ecef_speed_f := state.ecef_speed_f
        speed_status := state.speed_status } = state) ∧
    (∀ (ned_accel : NedCoor_i) (state : State),
      { StateSetAccelNed_i ned_accel state with
        ned_accel_i := state.ned_accel_i
        accel_status := state.accel_status } = state) ∧
    (∀ (ecef_accel : EcefCoor_i) (state : State),
      { StateSetAccelEcef_i ecef_accel state with
        ecef_accel_i := state.ecef_accel_i
        accel_status := state.accel_status } = state) ∧
    (∀ (ned_accel : NedCoor_f) (state : State),
      { StateSetAccelNed_f ned_accel state with
        ned_accel_f := state.ned_accel_f
        accel_status := state.accel_status } = state) ∧
    (∀ (ecef_accel : EcefCoor_f) (state : State),
      { StateSetAccelEcef_f ecef_accel state with
        ecef_accel_f := state.ecef_accel_f
        accel_status := state.accel_status } = state) ∧
    (∀ (ned_to_body_quat : Int32Quat) (state : State),
      { StateSetNedToBodyQuat_i ned_to_body_quat state with
        ned_to_body_quat_i := state.ned_to_body_quat_i
        att_status := state.att_status } = state) ∧
    (∀ (ned_to_body_rmat : Int32RMat) (state : State),
      { StateSetNedToBodyRMat_i ned_to_body_rmat state with
        ned_to_body_rmat_i := state.ned_to_body_rmat_i
        att_status := state.att_status } = state) ∧
    (∀ (ned_to_body_eulers : Int32Eulers) (state : State),
      { StateSetNedToBodyEulers_i ned_to_body_eulers state with
        ned_to_body_eulers_i := state.ned_to_body_eulers_i
        att_status := state.att_status } = state) ∧
    (∀ (ned_to_body_quat : FloatQuat) (state : State),
      { StateSetNedToBodyQuat_f ned_to_body_quat state with
        ned_to_body_quat_f := state.ned_to_body_quat_f
        att_status := state.att_status } = state) ∧
    (∀ (ned_to_body_rmat : FloatRMat) (state : State),
      { StateSetNedToBodyRMat_f ned_to_body_rmat state with
        ned_to_body_rmat_f := state.ned_to_body_rmat_f
        att_status := state.att_status } = state) ∧
    (∀ (ned_to_body_eulers : FloatEulers) (state : State),
      { StateSetNedToBodyEulers_f ned_to_body_eulers state with
        ned_to_body_eulers_f := state.ned_to_body_eulers_f
        att_status := state.att_status } = state) ∧
    (∀ (body_rate : Int32Rates) (state : State),
      { StateSetBodyRates_i body_rate state with
        body_rates_i := state.body_rates_i
        rate_status := state.rate_status } = state) ∧
    (∀ (body_rate : FloatRates) (state : State),
      { StateSetBodyRates_f body_rate state with
        body_rates_f := state.body_rates_f
        rate_status := state.rate_status } = state) ∧
    (∀ (h_windspeed : Int32Vect2) (state : State),
      { StateSetHorizontalWindspeed_i h_windspeed state with
        h_windspeed_i := state.h_windspeed_i
        wind_air_status := state.wind_air_status } = state) ∧
    (∀ (airspeed : int32_t) (state : State),
      { StateSetAirspeed_i airspeed state with
        airspeed_i := state.airspeed_i
        wind_air_status := state.wind_air_status } = state) ∧
    (∀ (h_windspeed : FloatVect2) (state : State),
      { StateSetHorizontalWindspeed_f h_windspeed state with
        h_windspeed_f := state.h_windspeed_f
        wind_air_status := state.wind_air_status } = state) ∧
    (∀ (airspeed : float) (state : State),
      { StateSetAirspeed_f airspeed state with
        airspeed_f := state.airspeed_f
        wind_air_status := state.wind_air_status } = state) := by
  refine ⟨?_, ?_, ?_, ?_, ?_, ?_, ?_, ?_, ?_, ?_, ?_, ?_, ?_, ?_, ?_, ?_, ?_, ?_, ?_, ?_, ?_, ?_, ?_, ?_, ?_, ?_, ?_⟩ <;> intro v state <;> rfl

/-! ## The Wind/Airspeed status byte -/

/-- C8 (counterexample): after `StateSetAirspeed_f` followed by
`StateSetHorizontalWindspeed_i` on the zero-initialised state,
`wind_air_status` is 18: the bit written for the float airspeed is still one
next to the bit written for the int windspeed, so the byte does not contain
only the bit of the representation just set. -/
theorem C8_windspeed_setter_keeps_airspeed_bit :
    (StateSetHorizontalWindspeed_i ⟨1, 2⟩
        (StateSetAirspeed_f ⟨7⟩ zeroState)).wind_air_status = 18 ∧
    ¬ OneBitSet (StateSetHorizontalWindspeed_i ⟨1, 2⟩
        (StateSetAirspeed_f ⟨7⟩ zeroState)).wind_air_status ∧
    flagBit (StateSetHorizontalWindspeed_i ⟨1, 2⟩
        (StateSetAirspeed_f ⟨7⟩ zeroState)).wind_air_status WINDSPEED_I = true ∧
    flagBit (StateSetHorizontalWindspeed_i ⟨1, 2⟩
        (StateSetAirspeed_f ⟨7⟩ zeroState)).wind_air_status AIRSPEED_F = true := by
  refine ⟨by decide, ?_, by decide, by decide⟩
  show ¬ OneBitSet 18
  decide

/-- C8 (amended): each Wind/Airspeed setter sets the bit of the representation
it writes, clears the bit of the same sub-quantity in the other numeric
domain and leaves the six remaining bits of `wind_air_status` as they were
(a bit of a flag being the one `SetBit` and `ClearBit` address, `1 << FLAG`
after expansion). -/
theorem C8_wind_air_setters_update_two_bits :
    ∀ (state : State),
      (∀ v, WindAirUpdate state.wind_air_status
        (StateSetHorizontalWindspeed_i v state).wind_air_status WINDSPEED_I WINDSPEED_F) ∧
      (∀ v, WindAirUpdate state.wind_air_status
        (StateSetAirspeed_i v state).wind_air_status AIRSPEED_I AIRSPEED_F) ∧
      (∀ v, WindAirUpdate state.wind_air_status
        (StateSetHorizontalWindspeed_f v state).wind_air_status WINDSPEED_F WINDSPEED_I) ∧
      (∀ v, WindAirUpdate state.wind_air_status
        (StateSetAirspeed_f v state).wind_air_status AIRSPEED_F AIRSPEED_I) := by
  intro state
  refine ⟨fun _ => ?_, fun _ => ?_, fun _ => ?_, fun _ => ?_⟩
  · exact windAirUpdate_SetBit_ClearBit _ 2 0 (by decide) (by decide) (by decide)
  · exact windAirUpdate_SetBit_ClearBit _ 3 1 (by decide) (by decide) (by decide)
  · exact windAirUpdate_SetBit_ClearBit _ 0 2 (by decide) (by decide) (by decide)
  · exact windAirUpdate_SetBit_ClearBit _ 1 3 (by decide) (by decide) (by decide)

/-- C9: windspeed and airspeed are independent within `wind_air_status`.  The
two windspeed setters leave both airspeed bits and both airspeed slots as
they were, the two airspeed setters leave both windspeed bits and both
windspeed slots as they were, and each setter leaves the bit of the written
representation one and the bit of its counterpart in the other numeric
domain zero (bits as addressed by `SetBit` and `ClearBit`). -/
theorem C9_windspeed_and_airspeed_independent :
    ∀ (state : State),
      (∀ v,
        flagBit (StateSetHorizontalWindspeed_i v state).wind_air_status AIRSPEED_I
          = flagBit state.wind_air_status AIRSPEED_I ∧
        flagBit (StateSetHorizontalWindspeed_i v state).wind_air_status AIRSPEED_F
          = flagBit state.wind_air_status AIRSPEED_F ∧
        (StateSetHorizontalWindspeed_i v state).airspeed_i = state.airspeed_i ∧
        (StateSetHorizontalWindspeed_i v state).airspeed_f = state.airspeed_f ∧
        flagBit (StateSetHorizontalWindspeed_i v state).wind_air_status WINDSPEED_I = true ∧
        flagBit (StateSetHorizontalWindspeed_i v state).wind_air_status WINDSPEED_F = false) ∧
      (∀ v,
        flagBit (StateSetHorizontalWindspeed_f v state).wind_air_status AIRSPEED_I
          = flagBit state.wind_air_status AIRSPEED_I ∧
        flagBit (StateSetHorizontalWindspeed_f v state).wind_air_status AIRSPEED_F
          = flagBit state.wind_air_status AIRSPEED_F ∧
        (StateSetHorizontalWindspeed_f v state).airspeed_i = state.airspeed_i ∧
        (StateSetHorizontalWindspeed_f v state).airspeed_f = state.airspeed_f ∧
        flagBit (StateSetHorizontalWindspeed_f v state).wind_air_status WINDSPEED_F = true ∧
        flagBit (StateSetHorizontalWindspeed_f v state).wind_air_status WINDSPEED_I = false) ∧
      (∀ v,
        flagBit (StateSetAirspeed_i v state).wind_air_status WINDSPEED_I
          = flagBit state.wind_air_status WINDSPEED_I ∧
        flagBit (StateSetAirspeed_i v state).wind_air_status WINDSPEED_F
          = flagBit state.wind_air_status WINDSPEED_F ∧
        (StateSetAirspeed_i v state).h_windspeed_i = state.h_windspeed_i ∧
        (StateSetAirspeed_i v state).h_windspeed_f = state.h_windspeed_f ∧
        flagBit (StateSetAirspeed_i v state).wind_air_status AIRSPEED_I = true ∧
        flagBit (StateSetAirspeed_i v state).wind_air_status AIRSPEED_F = false) ∧
      (∀ v,
        flagBit (StateSetAirspeed_f v state).wind_air_status WINDSPEED_I
          = flagBit state.wind_air_status WINDSPEED_I ∧
        flagBit (StateSetAirspeed_f v state).wind_air_status WINDSPEED_F
          = flagBit state.wind_air_status WINDSPEED_F ∧
        (StateSetAirspeed_f v state).h_windspeed_i = state.h_windspeed_i ∧
        (StateSetAirspeed_f v state).h_windspeed_f = state.h_windspeed_f ∧
        flagBit (StateSetAirspeed_f v state).wind_air_status AIRSPEED_F = true ∧
        flagBit (StateSetAirspeed_f v state).wind_air_status AIRSPEED_I = false) := by
  intro state
  have bit : ∀ (kc ks k : Nat), k + 1 < 8 →
      flagBit (SetBit (ClearBit state.wind_air_status (oneShl kc)) (oneShl ks)) (oneShl k)
        = ((state.wind_air_status.testBit (k + 1) && !decide (kc + 1 = k + 1))
            || decide (ks + 1 = k + 1)) := by
    intro kc ks k hk
    rw [flagBit_oneShl, testBit_SetBit_ClearBit _ _ _ _ hk]
  refine ⟨fun v => ⟨?_, ?_, rfl, rfl, ?_, ?_⟩, fun v => ⟨?_, ?_, rfl, rfl, ?_, ?_⟩,
    fun v => ⟨?_, ?_, rfl, rfl, ?_, ?_⟩, fun v => ⟨?_, ?_, rfl, rfl, ?_, ?_⟩⟩
  · exact (bit 2 0 1 (by decide)).trans (by simp [flagBit_oneShl, AIRSPEED_I])
  · exact (bit 2 0 3 (by decide)).trans (by simp [flagBit_oneShl, AIRSPEED_F])
  · exact (bit 2 0 0 (by decide)).trans (by simp)
  · exact (bit 2 0 2 (by decide)).trans (by simp)
  · exact (bit 0 2 1 (by decide)).trans (by simp [flagBit_oneShl, AIRSPEED_I])
  · exact (bit 0 2 3 (by decide)).trans (by simp [flagBit_oneShl, AIRSPEED_F])
  · exact (bit 0 2 2 (by decide)).trans (by simp)
  · exact (bit 0 2 0 (by decide)).trans (by simp)
  · exact (bit 3 1 0 (by decide)).trans (by simp [flagBit_oneShl, WINDSPEED_I])
  · exact (bit 3 1 2 (by decide)).trans (by simp [flagBit_oneShl, WINDSPEED_F])
  · exact (bit 3 1 1 (by decide)).trans (by simp)
  · exact (bit 3 1 3 (by decide)).trans (by simp)
  · exact (bit 1 3 0 (by decide)).trans (by simp [flagBit_oneShl, WINDSPEED_I])
  · exact (bit 1 3 2 (by decide)).trans (by simp [flagBit_oneShl, WINDSPEED_F])
  · exact (bit 1 3 3 (by decide)).trans (by simp)
  · exact (bit 1 3 1 (by decide)).trans (by simp)

/-! ## Horizontal speed norm and direction -/

/-- C10: after any of the four Ground-Speed setters none of the horizontal
norm and direction representations is valid: the validity test of each of
the four horizontal getters is 0, each getter invokes its derivation routine
once and returns the slot of the state that routine produces, the bit that
`SetBit` would write for each of the four flags is zero in `speed_status`,
and the setter leaves the four `h_speed_*` slots as they were. -/
theorem C10_speed_setters_never_validate_horizontal (op : Setter)
    (h : op.group = Group.speed) (derive : Derivations) (state : State) :
    (bit_is_set (op.run state).speed_status SPEED_HNORM_I = 0 ∧
      (StateGetHorizontalSpeedNorm_i derive (op.run state)).calls
        = [Routine.StateCalcHorizontalSpeedNorm_i] ∧
      (StateGetHorizontalSpeedNorm_i derive (op.run state)).val
        = (derive Routine.StateCalcHorizontalSpeedNorm_i (op.run state)).h_speed_norm_i) ∧
    (bit_is_set (op.run state).speed_status SPEED_HDIR_I = 0 ∧
      (StateGetHorizontalSpeedDir_i derive (op.run state)).calls
        = [Routine.StateCalcHorizontalSpeedDir_i] ∧
      (StateGetHorizontalSpeedDir_i derive (op.run state)).val
        = (derive Routine.StateCalcHorizontalSpeedDir_i (op.run state)).h_speed_dir_i) ∧
    (bit_is_set (op.run state).speed_status SPEED_HNORM_F = 0 ∧
      (StateGetHorizontalSpeedNorm_f derive (op.run state)).calls
        = [Routine.StateCalcHorizontalSpeedNorm_f] ∧
      (StateGetHorizontalSpeedNorm_f derive (op.run state)).val
        = (derive Routine.StateCalcHorizontalSpeedNorm_f (op.run state)).h_speed_norm_f) ∧
    (bit_is_set (op.run state).speed_status SPEED_HDIR_F = 0 ∧
      (StateGetHorizontalSpeedDir_f derive (op.run state)).calls
        = [Routine.StateCalcHorizontalSpeedDir_f] ∧
      (StateGetHorizontalSpeedDir_f derive (op.run state)).val
        = (derive Routine.StateCalcHorizontalSpeedDir_f (op.run state)).h_speed_dir_f) ∧
    (flagBit (op.run state).speed_status SPEED_HNORM_I = false ∧
      flagBit (op.run state).speed_status SPEED_HDIR_I = false ∧
      flagBit (op.run state).speed_status SPEED_HNORM_F = false ∧
      flagBit (op.run state).speed_status SPEED_HDIR_F = false) ∧
    (op.run state).h_speed_norm_i = state.h_speed_norm_i ∧
    (op.run state).h_speed_dir_i = state.h_speed_dir_i ∧
    (op.run state).h_speed_norm_f = state.h_speed_norm_f ∧
    (op.run state).h_speed_dir_f = state.h_speed_dir_f := by
  have t1 : ∀ x, bit_is_set x SPEED_HNORM_I = 0 := fun x => bit_is_set_oneShl_succ x 1
  have t2 : ∀ x, bit_is_set x SPEED_HDIR_I = 0 := fun x => bit_is_set_oneShl_succ x 2
  have t3 : ∀ x, bit_is_set x SPEED_HNORM_F = 0 := fun x => bit_is_set_oneShl_succ x 5
  have t4 : ∀ x, bit_is_set x SPEED_HDIR_F = 0 := fun x => bit_is_set_oneShl_succ x 6
  have bits : flagBit (op.run state).speed_status SPEED_HNORM_I = false ∧
      flagBit (op.run state).speed_status SPEED_HDIR_I = false ∧
      flagBit (op.run state).speed_status SPEED_HNORM_F = false ∧
      flagBit (op.run state).speed_status SPEED_HDIR_F = false := by
    have e : (op.run state).speed_status = 4 ∨ (op.run state).speed_status = 2 ∨
        (op.run state).speed_status = 64 ∨ (op.run state).speed_status = 32 := by
      cases op <;> simp [Setter.group] at h
      · exact Or.inl rfl
      · exact Or.inr (Or.inl rfl)
      · exact Or.inr (Or.inr (Or.inl rfl))
      · exact Or.inr (Or.inr (Or.inr rfl))
    rcases e with e | e | e | e <;> rw [e] <;> decide
  have slots : (op.run state).h_speed_norm_i = state.h_speed_norm_i ∧
      (op.run state).h_speed_dir_i = state.h_speed_dir_i ∧
      (op.run state).h_speed_norm_f = state.h_speed_norm_f ∧
      (op.run state).h_speed_dir_f = state.h_speed_dir_f := by
    cases op <;> simp [Setter.group] at h <;> exact ⟨rfl, rfl, rfl, rfl⟩
  refine ⟨⟨t1 _, ?_, ?_⟩, ⟨t2 _, ?_, ?_⟩, ⟨t3 _, ?_, ?_⟩, ⟨t4 _, ?_, ?_⟩, bits, slots⟩ <;>
    simp [StateGetHorizontalSpeedNorm_i, StateGetHorizontalSpeedDir_i,
      StateGetHorizontalSpeedNorm_f, StateGetHorizontalSpeedDir_f, t1, t2, t3, t4, invoke]

/-- The statement of C10 at `StateSetSpeedNed_i` with speed (3, 4, 0) on the
zero-initialised state, read through `StateGetHorizontalSpeedNorm_i`. -/
theorem C10_speed_setters_never_validate_horizontal_witness :
    (Setter.SpeedNed_i ⟨3, 4, 0⟩).group = Group.speed ∧
    (StateGetHorizontalSpeedNorm_i markValid
        ((Setter.SpeedNed_i ⟨3, 4, 0⟩).run zeroState)).calls
      = [Routine.StateCalcHorizontalSpeedNorm_i] :=
  ⟨rfl, (C10_speed_setters_never_validate_horizontal (Setter.SpeedNed_i ⟨3, 4, 0⟩) rfl
    markValid zeroState).1.2.1⟩


/-! ## Which getters derive, and when -/

theorem trace_calls_iff (derive : Derivations) (r : Routine) (s : State) (c : Prop)
    [Decidable c] :
    (((if c then invoke derive r (s, []) else (s, [])) : Trace).2 = [r] ↔ c) ∧
    (((if c then invoke derive r (s, []) else (s, [])) : Trace).2 = [] ↔ ¬ c) := by
  by_cases h : c <;> simp [h, invoke]

/-- C12: the two float acceleration getters invoke their derivation routine
exactly when the validity test on their flag succeeds and skip it exactly
when the test fails; each of the 28 other getters invokes its derivation
routine exactly when its validity test fails and skips it exactly when the
test succeeds. -/
theorem C12_only_accel_float_getters_inverted (derive : Derivations) (state : State) :
    (((StateGetAccelNed_f derive state).calls = [Routine.StateCalcAccelNed_f]
        ↔ bit_is_set state.accel_status ACCEL_NED_F ≠ 0) ∧
      ((StateGetAccelNed_f derive state).calls = []
        ↔ bit_is_set state.accel_status ACCEL_NED_F = 0)) ∧
    (((StateGetAccelEcef_f derive state).calls = [Routine.StateCalcAccelEcef_f]
        ↔ bit_is_set state.accel_status ACCEL_ECEF_F ≠ 0) ∧
      ((StateGetAccelEcef_f derive state).calls = []
        ↔ bit_is_set state.accel_status ACCEL_ECEF_F = 0)) ∧
    ∀ r : Routine, r ≠ Routine.StateCalcAccelNed_f → r ≠ Routine.StateCalcAccelEcef_f →
      ((getterTrace derive r state).2 = [r]
        ↔ bit_is_set (state.status r.group) r.flag = 0) ∧
      ((getterTrace derive r state).2 = []
        ↔ bit_is_set (state.status r.group) r.flag ≠ 0) := by
  refine ⟨?_, ?_, ?_⟩
  · have h := trace_calls_iff derive Routine.StateCalcAccelNed_f state
      (bit_is_set state.accel_status ACCEL_NED_F ≠ 0)
    exact ⟨h.1, h.2.trans not_not⟩
  · have h := trace_calls_iff derive Routine.StateCalcAccelEcef_f state
      (bit_is_set state.accel_status ACCEL_ECEF_F ≠ 0)
    exact ⟨h.1, h.2.trans not_not⟩
  · intro r h1 h2
    cases r <;>
      first
        | exact absurd rfl h1
        | exact absurd rfl h2
        | exact trace_calls_iff derive _ state _


/-- The statement of C12 at `StateGetPositionEcef_i` on the zero-initialised
state. -/
theorem C12_only_accel_float_getters_inverted_witness :
    ((getterTrace markValid Routine.StateCalcPositionEcef_i zeroState).2
        = [Routine.StateCalcPositionEcef_i]
      ↔ bit_is_set (zeroState.status Routine.StateCalcPositionEcef_i.group)
          Routine.StateCalcPositionEcef_i.flag = 0) ∧
    ((getterTrace markValid Routine.StateCalcPositionEcef_i zeroState).2 = []
      ↔ bit_is_set (zeroState.status Routine.StateCalcPositionEcef_i.group)
          Routine.StateCalcPositionEcef_i.flag ≠ 0) :=
  (C12_only_accel_float_getters_inverted markValid zeroState).2.2
    Routine.StateCalcPositionEcef_i (by decide) (by decide)

/-! ## The double shift -/

theorem value_oneShl (k : Nat) : (oneShl k).value = 2 ^ k := by
  simp [MacroText.value, evalChain, oneShl, ShiftOp.apply, Nat.shiftLeft_eq]

theorem flags_value_lt (g : Group) : ∀ f ∈ g.flags, f.value < 256 := by
  cases g <;> decide

/-- C13: each of the 23 setters of the Position, Speed, Acceleration, Attitude
and Angular-Rate groups stores `(2 * FLAG) mod 256` in the status byte of its
group, `FLAG` being the value of its own flag macro.  The stored byte is never
that flag value itself; it is the value of any flag of the group that is
twice the setter's flag.  `StateSetSpeedNed_i` stores 4, the value of
`SPEED_HNORM_I`; `StateSetPositionNed_f` stores 64, the value of `POS_LLA_F`;
`StateSetPositionUtm_f` stores 0, the status of the zero-initialised state. -/
theorem C13_setters_store_twice_their_flag :
    (∀ (op : Setter) (state : State), op.group ≠ Group.wind_air →
      (op.run state).status op.group = (2 * op.flag.value) % 256 ∧
      (op.run state).status op.group ≠ op.flag.value ∧
      ∀ f, f ∈ op.group.flags → f.value = 2 * op.flag.value →
        (op.run state).status op.group = f.value) ∧
    (∀ v state, (StateSetSpeedNed_i v state).speed_status = 4 ∧ SPEED_HNORM_I.value = 4) ∧
    (∀ v state, (StateSetPositionNed_f v state).pos_status = 64 ∧ POS_LLA_F.value = 64) ∧
    (∀ v state, (StateSetPositionUtm_f v state).pos_status = 0 ∧
      zeroState.pos_status = 0) := by
  refine ⟨?_, fun _ _ => ⟨rfl, rfl⟩, fun _ _ => ⟨rfl, rfl⟩, fun _ _ => ⟨rfl, rfl⟩⟩
  intro op state hw
  have main : ∃ k, k < 8 ∧ op.flag = oneShl k ∧
      (op.run state).status op.group = 2 ^ (k + 1) % 256 := by
    cases op <;> first
      | exact absurd rfl hw
      | exact ⟨0, by decide, rfl, rfl⟩
      | exact ⟨1, by decide, rfl, rfl⟩
      | exact ⟨2, by decide, rfl, rfl⟩
      | exact ⟨3, by decide, rfl, rfl⟩
      | exact ⟨4, by decide, rfl, rfl⟩
      | exact ⟨5, by decide, rfl, rfl⟩
      | exact ⟨6, by decide, rfl, rfl⟩
      | exact ⟨7, by decide, rfl, rfl⟩
  obtain ⟨k, hk, hf, hs⟩ := main
  have e : 2 * op.flag.value = 2 ^ (k + 1) := by
    rw [hf, value_oneShl, pow_succ]
    ring
  have hne : 2 ^ (k + 1) % 256 ≠ 2 ^ k := by
    interval_cases k <;> decide
  refine ⟨by rw [hs, e], ?_, ?_⟩
  · rw [hs, hf, value_oneShl]
    exact hne
  · intro f hf' hv
    have hlt : f.value < 256 := flags_value_lt op.group f hf'
    rw [hs, ← e, ← hv, Nat.mod_eq_of_lt hlt]

/-- The statement of C13 at `StateSetAccelEcef_f` on the zero-initialised
state: the byte stored is 16, twice `ACCEL_ECEF_F` and the value of
`ACCEL_NED_F`. -/
theorem C13_setters_store_twice_their_flag_witness :
    ((Setter.AccelEcef_f ⟨⟨1⟩, ⟨2⟩, ⟨3⟩⟩).run zeroState).status Group.accel
        = (2 * ACCEL_ECEF_F.value) % 256 ∧
    ((Setter.AccelEcef_f ⟨⟨1⟩, ⟨2⟩, ⟨3⟩⟩).run zeroState).status Group.accel
        ≠ ACCEL_ECEF_F.value ∧
    ((Setter.AccelEcef_f ⟨⟨1⟩, ⟨2⟩, ⟨3⟩⟩).run zeroState).status Group.accel
        = ACCEL_NED_F.value :=
  have h := C13_setters_store_twice_their_flag.1 (Setter.AccelEcef_f ⟨⟨1⟩, ⟨2⟩, ⟨3⟩⟩)
    zeroState (by decide)
  ⟨h.1, h.2.1, h.2.2 ACCEL_NED_F (by decide) (by decide)⟩

/-! ## The validity test of the getters -/

/-- C14: after expansion the validity test on a flag `1<<k` is
`((x >> 1) << k) & 1`: bit 1 of `x` when `k = 0` and 0 when `k ≥ 1`, for every
status byte `x`.  Hence in every state each getter other than the two float
acceleration getters whose flag has `k ≥ 1` invokes its derivation routine on
every call (among them `StateGetPositionNed_i`, `StateGetPositionLla_f`,
`StateGetNedToBodyEulers_f`, `StateGetBodyRates_f`, `StateGetAirspeed_i`),
and `StateGetAccelNed_f` and `StateGetAccelEcef_f` never invoke theirs and
return the stored slot as it is. -/
theorem C14_validity_test_constant :
    (∀ x k : Nat, bit_is_set x (oneShl k) = (((x >>> 1) <<< k) &&& 1)) ∧
    (∀ x : Nat, bit_is_set x (oneShl 0) = (x / 2) % 2) ∧
    (∀ x k : Nat, 1 ≤ k → bit_is_set x (oneShl k) = 0) ∧
    (∀ (derive : Derivations) (state : State) (r : Routine),
      r ≠ Routine.StateCalcAccelNed_f → r ≠ Routine.StateCalcAccelEcef_f →
      (∃ k, 1 ≤ k ∧ r.flag = oneShl k) →
      getterTrace derive r state = (derive r state, [r])) ∧
    (∀ (derive : Derivations) (state : State),
      (StateGetPositionNed_i derive state).calls = [Routine.StateCalcPositionNed_i] ∧
      (StateGetPositionLla_f derive state).calls = [Routine.StateCalcPositionLla_f] ∧
      (StateGetNedToBodyEulers_f derive state).calls
        = [Routine.StateCalcNedToBodyEulers_f] ∧
      (StateGetBodyRates_f derive state).calls = [Routine.StateCalcBodyRates_f] ∧
      (StateGetAirspeed_i derive state).calls = [Routine.StateCalcAirspeed_i]) ∧
    (∀ (derive : Derivations) (state : State),
      ((StateGetAccelNed_f derive state).calls = [] ∧
        (StateGetAccelNed_f derive state).state = state ∧
        (StateGetAccelNed_f derive state).val = state.ned_accel_f) ∧
      ((StateGetAccelEcef_f derive state).calls = [] ∧
        (StateGetAccelEcef_f derive state).state = state ∧
        (StateGetAccelEcef_f derive state).val = state.ecef_accel_f)) := by
  have zero : ∀ x k : Nat, 1 ≤ k → bit_is_set x (oneShl k) = 0 := by
    intro x k hk
    obtain ⟨j, rfl⟩ : ∃ j, k = j + 1 := ⟨k - 1, by omega⟩
    exact bit_is_set_oneShl_succ x j
  have fire : ∀ (derive : Derivations) (state : State) (r : Routine) (x : Nat)
      (f : MacroText), (∃ k, 1 ≤ k ∧ f = oneShl k) →
      ((if bit_is_set x f = 0 then invoke derive r (state, []) else (state, [])) : Trace)
        = (derive r state, [r]) := by
    intro derive state r x f hf
    obtain ⟨k, hk, rfl⟩ := hf
    simp [zero x k hk, invoke]
  refine ⟨fun x k => rfl, bit_is_set_oneShl_zero, zero, ?_, ?_, ?_⟩
  · intro derive state r h1 h2 hk
    cases r <;>
      first
        | exact absurd rfl h1
        | exact absurd rfl h2
        | exact fire derive state _ _ _ hk
  · intro derive state
    refine ⟨?_, ?_, ?_, ?_, ?_⟩
    · exact congrArg Prod.snd (fire derive state _ state.pos_status POS_NED_I ⟨1, by decide, rfl⟩)
    · exact congrArg Prod.snd (fire derive state _ state.pos_status POS_LLA_F ⟨6, by decide, rfl⟩)
    · exact congrArg Prod.snd (fire derive state _ state.att_status ATT_EULER_F ⟨4, by decide, rfl⟩)
    · exact congrArg Prod.snd (fire derive state _ state.rate_status RATE_F ⟨1, by decide, rfl⟩)
    · exact congrArg Prod.snd
        (fire derive state _ state.wind_air_status AIRSPEED_I ⟨1, by decide, rfl⟩)
  · intro derive state
    have h1 : bit_is_set state.accel_status ACCEL_NED_F = 0 := zero _ 4 (by decide)
    have h2 : bit_is_set state.accel_status ACCEL_ECEF_F = 0 := zero _ 3 (by decide)
    refine ⟨⟨?_, ?_, ?_⟩, ⟨?_, ?_, ?_⟩⟩ <;>
      simp [StateGetAccelNed_f, StateGetAccelEcef_f, h1, h2]


/-- The statement of C14 at `StateGetPositionNed_i` on the zero-initialised
state. -/
theorem C14_validity_test_constant_witness :
    getterTrace markValid Routine.StateCalcPositionNed_i zeroState
      = (markValid Routine.StateCalcPositionNed_i zeroState,
          [Routine.StateCalcPositionNed_i]) :=
  C14_validity_test_constant.2.2.2.1 markValid zeroState Routine.StateCalcPositionNed_i
    (by decide) (by decide) ⟨1, by decide, rfl⟩

/-! ## The status byte as a record of the last write -/

/-- C15: within each of the Position, Speed, Acceleration, Attitude and
Angular-Rate groups the status bytes left by the setters of the group are
pairwise different, whatever the arguments and the prior states, so the byte
left by a setter tells which setter of the group ran last. -/
theorem C15_setters_of_a_group_store_distinct_bytes :
    (∀ (v1 : EcefCoor_i) (v2 : NedCoor_i) (v3 : LlaCoor_i) (v4 : FloatVect3) (v5 : EcefCoor_f) (v6 : NedCoor_f) (v7 : LlaCoor_f)
        (s1 s2 s3 s4 s5 s6 s7 : State),
      List.Nodup [(StateSetPositionEcef_i v1 s1).pos_status,
        (StateSetPositionNed_i v2 s2).pos_status,
        (StateSetPositionLla_i v3 s3).pos_status,
        (StateSetPositionUtm_f v4 s4).pos_status,
        (StateSetPositionEcef_f v5 s5).pos_status,
        (StateSetPositionNed_f v6 s6).pos_status,
        (StateSetPositionLla_f v7 s7).pos_status]) ∧
    (∀ (v1 : NedCoor_i) (v2 : EcefCoor_i) (v3 : NedCoor_f) (v4 : EcefCoor_f)
        (s1 s2 s3 s4 : State),
      List.Nodup [(StateSetSpeedNed_i v1 s1).speed_status,
        (StateSetSpeedEcef_i v2 s2).speed_status,
        (StateSetSpeedNed_f v3 s3).speed_status,
        (StateSetSpeedEcef_f v4 s4).speed_status]) ∧
    (∀ (v1 : NedCoor_i) (v2 : EcefCoor_i) (v3 : NedCoor_f) (v4 : EcefCoor_f)
        (s1 s2 s3 s4 : State),
      List.Nodup [(StateSetAccelNed_i v1 s1).accel_status,
        (StateSetAccelEcef_i v2 s2).accel_status,
        (StateSetAccelNed_f v3 s3).accel_status,
        (StateSetAccelEcef_f v4 s4).accel_status]) ∧
    (∀ (v1 : Int32Quat) (v2 : Int32RMat) (v3 : Int32Eulers) (v4 : FloatQuat) (v5 : FloatRMat) (v6 : FloatEulers)
        (s1 s2 s3 s4 s5 s6 : State),
      List.Nodup [(StateSetNedToBodyQuat_i v1 s1).att_status,
        (StateSetNedToBodyRMat_i v2 s2).att_status,
        (StateSetNedToBodyEulers_i v3 s3).att_status,
        (StateSetNedToBodyQuat_f v4 s4).att_status,
        (StateSetNedToBodyRMat_f v5 s5).att_status,
        (StateSetNedToBodyEulers_f v6 s6).att_status]) ∧
    (∀ (v1 : Int32Rates) (v2 : FloatRates)
        (s1 s2 : State),
      List.Nodup [(StateSetBodyRates_i v1 s1).rate_status,
        (StateSetBodyRates_f v2 s2).rate_status]) := by
  refine ⟨?_, ?_, ?_, ?_, ?_⟩
  · intros
    show List.Nodup [2, 4, 8, 0, 32, 64, 128]
    decide
  · intros
    show List.Nodup [4, 2, 64, 32]
    decide
  · intros
    show List.Nodup [4, 2, 32, 16]
    decide
  · intros
    show List.Nodup [2, 8, 4, 16, 64, 32]
    decide
  · intros
    show List.Nodup [2, 4]
    decide

/-! ## Commuting writes -/

theorem testBit_SetBit_of_ge (a : Nat) (n : MacroText) (i : Nat) (hi : 8 ≤ i) :
    (SetBit a n).testBit i = false := by
  have h := Nat.testBit_mod_two_pow (a ||| oneShlFlag n) 8 i
  have hlt : ¬ i < 8 := by omega
  simpa [SetBit, toUint8, hlt] using h

/-- Two `ClearBit; SetBit` pairs on different bits can be run in either
order. -/
theorem SetBit_ClearBit_comm (a c1 s1 c2 s2 : Nat) (h1 : s1 ≠ c2) (h2 : s2 ≠ c1) :
    SetBit (ClearBit (SetBit (ClearBit a (oneShl c1)) (oneShl s1)) (oneShl c2)) (oneShl s2)
      = SetBit (ClearBit (SetBit (ClearBit a (oneShl c2)) (oneShl s2)) (oneShl c1))
          (oneShl s1) := by
  apply Nat.eq_of_testBit_eq
  intro i
  by_cases hi : i < 8
  · rw [testBit_SetBit_ClearBit _ _ _ _ hi, testBit_SetBit_ClearBit _ _ _ _ hi,
      testBit_SetBit_ClearBit _ _ _ _ hi, testBit_SetBit_ClearBit _ _ _ _ hi]
    by_cases e1 : c1 + 1 = i <;> by_cases e2 : s1 + 1 = i <;> by_cases e3 : c2 + 1 = i <;>
      by_cases e4 : s2 + 1 = i <;>
      first
        | (exfalso; omega)
        | simp [e1, e2, e3, e4]
  · rw [testBit_SetBit_of_ge _ _ _ (by omega), testBit_SetBit_of_ge _ _ _ (by omega)]

/-- C16: two setters of different groups commute on every state, for all
arguments; within Wind/Airspeed each windspeed setter commutes with each
airspeed setter. -/
theorem C16_independent_setters_commute :
    (∀ (op1 op2 : Setter) (state : State), op1.group ≠ op2.group →
      op2.run (op1.run state) = op1.run (op2.run state)) ∧
    (∀ (w : Int32Vect2) (a : int32_t) (state : State),
      StateSetAirspeed_i a (StateSetHorizontalWindspeed_i w state)
        = StateSetHorizontalWindspeed_i w (StateSetAirspeed_i a state)) ∧
    (∀ (w : Int32Vect2) (a : float) (state : State),
      StateSetAirspeed_f a (StateSetHorizontalWindspeed_i w state)
        = StateSetHorizontalWindspeed_i w (StateSetAirspeed_f a state)) ∧
    (∀ (w : FloatVect2) (a : int32_t) (state : State),
      StateSetAirspeed_i a (StateSetHorizontalWindspeed_f w state)
        = StateSetHorizontalWindspeed_f w (StateSetAirspeed_i a state)) ∧
    (∀ (w : FloatVect2) (a : float) (state : State),
      StateSetAirspeed_f a (StateSetHorizontalWindspeed_f w state)
        = StateSetHorizontalWindspeed_f w (StateSetAirspeed_f a state)) := by
  refine ⟨?_, ?_, ?_, ?_, ?_⟩
  · intro op1 op2 state h
    cases op1 <;> cases op2 <;>
      first
        | exact absurd rfl h
        | rfl
  · intro w a state
    exact congrArg
      (fun b => { state with
        h_windspeed_i := VECT2_COPY w, airspeed_i := a, wind_air_status := b })
      (SetBit_ClearBit_comm state.wind_air_status 2 0 3 1 (by decide) (by decide))
  · intro w a state
    exact congrArg
      (fun b => { state with
        h_windspeed_i := VECT2_COPY w, airspeed_f := a, wind_air_status := b })
      (SetBit_ClearBit_comm state.wind_air_status 2 0 1 3 (by decide) (by decide))
  · intro w a state
    exact congrArg
      (fun b => { state with
        h_windspeed_f := VECT2_COPY w, airspeed_i := a, wind_air_status := b })
      (SetBit_ClearBit_comm state.wind_air_status 0 2 3 1 (by decide) (by decide))
  · intro w a state
    exact congrArg
      (fun b => { state with
        h_windspeed_f := VECT2_COPY w, airspeed_f := a, wind_air_status := b })
      (SetBit_ClearBit_comm state.wind_air_status 0 2 1 3 (by decide) (by decide))


/-- The statement of C16 at `StateSetPositionEcef_i` and `StateSetAirspeed_i` on
the zero-initialised state. -/
theorem C16_independent_setters_commute_witness :
    (Setter.Airspeed_i 5).run ((Setter.PositionEcef_i ⟨1, 2, 3⟩).run zeroState)
      = (Setter.PositionEcef_i ⟨1, 2, 3⟩).run ((Setter.Airspeed_i 5).run zeroState) :=
  C16_independent_setters_commute.1 (Setter.PositionEcef_i ⟨1, 2, 3⟩) (Setter.Airspeed_i 5)
    zeroState (by decide)

/-! ## Origin gating of the NED position getters -/

/-- With routines that always return, the getter over routines that may stop
is the getter of `state.h`. -/
theorem gated_StateGetPositionNed_i_of_total (derive : Derivations) (state : State) :
    Gated.StateGetPositionNed_i (fun r s => Except.ok (derive r s)) state
      = Except.ok (StateGetPositionNed_i derive state) := by
  unfold Gated.StateGetPositionNed_i StateGetPositionNed_i
  by_cases h : bit_is_set state.pos_status POS_NED_I = 0 <;> simp [h, Gated.invoke, invoke]

theorem gated_StateGetPositionNed_f_of_total (derive : Derivations) (state : State) :
    Gated.StateGetPositionNed_f (fun r s => Except.ok (derive r s)) state
      = Except.ok (StateGetPositionNed_f derive state) := by
  unfold Gated.StateGetPositionNed_f StateGetPositionNed_f
  by_cases h : bit_is_set state.pos_status POS_NED_F = 0 <;> simp [h, Gated.invoke, invoke]

end PprzState
